import Mathlib

/-!
Verification of the modpack sync core: a shallow embedding of the
discovery/diff/plan/execute pipeline (`app/core/scanner.py`,
`app/core/syncer.py`, `app/core/persistence.py`) together with proofs of the
spec's claims about plan classification, execution gating, progress
reporting, and history persistence.

Filesystem trees and on-disk history are modelled as association lists
(mirroring Python dict insertion-order semantics); file contents are modelled
as opaque strings; digests are carried as strings exactly as the code does.
-/

namespace ModSync

/-- Association-list lookup mirroring Python `dict.get` (first matching key). -/
def alookup {α : Type} (l : List (String × α)) (k : String) : Option α :=
  match l.find? (fun kv => kv.1 == k) with
  | some kv => some kv.2
  | none => none

/-- Association-list update mirroring Python `dict[k] = v`: replace in place if
the key is present, otherwise append at the end. -/
def assocSet {α : Type} : List (String × α) → String → α → List (String × α)
  | [], k, v => [(k, v)]
  | (k', v') :: rest, k, v =>
    if k' == k then (k, v) :: rest else (k', v') :: assocSet rest k v

/-- Model of `FileAction` from `app/core/models.py`. -/
inductive FileAction
  | copy
  | update
  | delete
  | skip
deriving Repr, DecidableEq

/-- Model of `FileChange` from `app/core/models.py`. Paths are plain strings. -/
structure FileChange where
  relative_path : String
  action : FileAction
  source_path : Option String := none
  target_path : Option String := none
  size_bytes : Option Nat := none
  hash_digest : Option String := none
  reason : Option String := none
deriving Repr, DecidableEq

/-- Model of `SyncPlan` from `app/core/models.py`: four ordered change lists. -/
structure SyncPlan where
  adds : List FileChange := []
  updates : List FileChange := []
  removals : List FileChange := []
  skipped : List FileChange := []
deriving Repr, DecidableEq

/-- Model of `SnapshotEntry` from `app/core/scanner.py`: one file observed by a walk. -/
structure SnapshotEntry where
  relative_path : String
  absolute_path : String
  size : Nat
  mtime : Nat
  hash_digest : String
deriving Repr, DecidableEq

/-- One per-path record inside `SyncHistory.files`.  The code reads the fields
through `dict.get`, so each field is optional. -/
structure HistInfo where
  hash : Option String := none
  size : Option String := none
  mtime : Option String := none
deriving Repr, DecidableEq

/-- Model of `SyncHistory` from `app/core/models.py`. The `last_synced` timestamp is
modelled as an opaque string. -/
structure SyncHistory where
  modpack_name : String
  files : List (String × HistInfo) := []
  exclusions : List String := []
  last_synced : Option String := none
deriving Repr, DecidableEq

/-- Truthiness of `info.get("hash")` in Python: `None` and `""` are falsy. -/
def histHashTruthy : Option String → Bool
  | none => false
  | some s => !(s == "")

/-- Model of `Path` joining `target_path / rel_path` as done throughout the code. -/
def joinPath (base rel : String) : String := base ++ "/" ++ rel

/-- The `FileChange` constructed at the top of the source loop of
`build_sync_plan` (scanner.py lines 110-117). -/
def mkSourceChange (target_path rel : String) (e : SnapshotEntry) : FileChange :=
  { relative_path := rel
    action := FileAction.copy
    source_path := some e.absolute_path
    target_path := some (joinPath target_path rel)
    size_bytes := some e.size
    hash_digest := some e.hash_digest
    reason := none }

/-- The drift test of scanner.py line 139:
`info.get("hash") and target_entry and target_entry.hash_digest != info.get("hash")`. -/
def driftDetected (info : HistInfo) (tentry : Option SnapshotEntry) : Bool :=
  match info.hash, tentry with
  | some h, some te => !(h == "") && !(te.hash_digest == h)
  | _, _ => false

/-- The update `FileChange` built in the drift branch (scanner.py lines 141-149). -/
def mkDriftChange (target_path rel : String) : FileChange :=
  { relative_path := rel
    action := FileAction.update
    source_path := none
    target_path := some (joinPath target_path rel)
    size_bytes := none
    hash_digest := none
    reason := some "Target file changed since last sync" }

/-- The delete `FileChange` built in the removal branch (scanner.py lines 152-160). -/
def mkRemovalChange (target_path rel : String) : FileChange :=
  { relative_path := rel
    action := FileAction.delete
    source_path := none
    target_path := some (joinPath target_path rel)
    size_bytes := none
    hash_digest := none
    reason := some "Removed from modpack" }

/-- Model of `build_sync_plan` from `app/core/scanner.py` (lines 97-171), taking the two
freshly gathered snapshots and the persisted history as inputs.  The snapshots
are association lists in traversal order; `targetFileExists` models the
`(target_path / rel_path).exists()` filesystem probe of line 152.  Each output
list collects, in iteration order, exactly the changes the corresponding
`plan.<list>.append` receives. -/
def build_sync_plan (history : SyncHistory)
    (source_snapshot target_snapshot : List (String × SnapshotEntry))
    (target_path : String) (targetFileExists : String → Bool) :
    SyncPlan × List (String × HistInfo) :=
  let adds := (source_snapshot.filter
      (fun kv => (alookup target_snapshot kv.1).isNone)).map
      (fun kv => mkSourceChange target_path kv.1 kv.2)
  let srcUpdates := source_snapshot.filterMap (fun kv =>
      match alookup target_snapshot kv.1 with
      | some te =>
        if !(te.hash_digest == kv.2.hash_digest) then
          some { mkSourceChange target_path kv.1 kv.2 with
                   action := FileAction.update, reason := some "Content differs" }
        else none
      | none => none)
  let skipped := source_snapshot.filterMap (fun kv =>
      match alookup target_snapshot kv.1 with
      | some te =>
        if !(te.hash_digest == kv.2.hash_digest) then none
        else some { mkSourceChange target_path kv.1 kv.2 with action := FileAction.skip }
      | none => none)
  let history_files := history.files.filter
      (fun kv => (alookup source_snapshot kv.1).isNone)
  let histUpdates := history_files.filterMap (fun kv =>
      if driftDetected kv.2 (alookup target_snapshot kv.1) then
        some (mkDriftChange target_path kv.1)
      else none)
  let removals := history_files.filterMap (fun kv =>
      if driftDetected kv.2 (alookup target_snapshot kv.1) then none
      else if targetFileExists (joinPath target_path kv.1) then
        some (mkRemovalChange target_path kv.1)
      else none)
  let payload := source_snapshot.map (fun kv =>
      (kv.1, ({ hash := some kv.2.hash_digest
                size := some (toString kv.2.size)
                mtime := some (toString kv.2.mtime) } : HistInfo)))
  ({ adds := adds, updates := srcUpdates ++ histUpdates,
     removals := removals, skipped := skipped }, payload)

/-- One raw record of the on-disk history document
(`{"files": ..., "exclusions": ..., "last_synced": ...}`). -/
structure RawRec where
  files : List (String × HistInfo)
  exclusions : List String
  last_synced : Option String
deriving Repr, DecidableEq

/-- State of `SyncHistoryStore` (`app/core/persistence.py`): the parsed on-disk
document plus the in-memory cache.  The mutex is not modelled (all operations
here are already whole-state transformers). -/
structure StoreState where
  disk : List (String × RawRec) := []
  cache : List (String × SyncHistory) := []
deriving Repr, DecidableEq

/-- Model of `SyncHistoryStore.load_all`: return the cache if non-empty, otherwise parse
the raw document into the cache.  Returns the histories and the new state. -/
def load_all (s : StoreState) : List (String × SyncHistory) × StoreState :=
  if s.cache.isEmpty then
    let cache := s.disk.map (fun kv =>
      (kv.1, { modpack_name := kv.1
               files := kv.2.files
               exclusions := kv.2.exclusions
               last_synced := kv.2.last_synced : SyncHistory }))
    (cache, { s with cache := cache })
  else (s.cache, s)

/-- Model of `SyncHistoryStore.get_history`: cached/persisted history for the name, or a
fresh empty one, which is inserted into the cache dict (the code mutates the
dict object returned by `load_all`). -/
def get_history (s : StoreState) (modpack_name : String) : SyncHistory × StoreState :=
  let (histories, s') := load_all s
  match alookup histories modpack_name with
  | some h => (h, s')
  | none =>
    let h : SyncHistory := { modpack_name := modpack_name }
    (h, { s' with cache := assocSet s'.cache modpack_name h })

/-- Model of `SyncHistoryStore.save_history`: read-modify-write of the whole raw table,
then replace the cache entry. -/
def save_history (s : StoreState) (history : SyncHistory) : StoreState :=
  let raw := assocSet s.disk history.modpack_name
    { files := history.files
      exclusions := history.exclusions
      last_synced := history.last_synced }
  { disk := raw, cache := assocSet s.cache history.modpack_name history }

/-- Model of `SyncHistoryStore.update_file_snapshot`: set `files` to the snapshot
payload, refresh `last_synced` to the current time, and save. -/
def update_file_snapshot (s : StoreState) (modpack_name : String)
    (snapshot : List (String × HistInfo)) (now : String) : StoreState :=
  let (history, s') := get_history s modpack_name
  save_history s' { history with files := snapshot, last_synced := some now }

/-- Model of `SyncHistoryStore.add_exclusion`: idempotent append, saving only on change. -/
def add_exclusion (s : StoreState) (modpack_name : String) (relative_path : String) :
    StoreState :=
  let (history, s') := get_history s modpack_name
  if history.exclusions.contains relative_path then s'
  else save_history s' { history with exclusions := history.exclusions ++ [relative_path] }

/-- A filesystem: file contents by absolute path, plus the set of directory
paths (used only for existence probes and empty-directory pruning). -/
structure Fs where
  files : List (String × String) := []
  dirs : List String := []
deriving Repr, DecidableEq

/-- Content of the file at `p`, if a file exists there. -/
def Fs.readFile (fs : Fs) (p : String) : Option String := alookup fs.files p

/-- Model of `Path.exists()`: true for files and directories. -/
def Fs.existsPath (fs : Fs) (p : String) : Bool :=
  (fs.readFile p).isSome || fs.dirs.contains p

/-- Write (create or overwrite) the file at `p`. -/
def Fs.writeFile (fs : Fs) (p : String) (content : String) : Fs :=
  { fs with files := assocSet fs.files p content }

/-- Model of `filesystem.remove_file`: unlink, tolerating absence. -/
def Fs.removeFile (fs : Fs) (p : String) : Fs :=
  { fs with files := fs.files.filter (fun kv => !(kv.1 == p)) }

/-- Final path component, as `Path.name`. -/
def baseName (p : String) : String := (p.splitOn "/").getLastD p

/-- Model of `filesystem.create_backup`: copy the file into
`backup_root/<timestamp>/<basename>`.  Failure (missing source) is non-fatal
and leaves the filesystem unchanged. -/
def createBackup (fs : Fs) (source : String) (backup_root : String) (now : String) : Fs :=
  match fs.readFile source with
  | some content => fs.writeFile (joinPath (joinPath backup_root now) (baseName source)) content
  | none => fs

/-- Is `d` a directory strictly below `base`? -/
def properlyUnder (d base : String) : Bool :=
  !(d == base) && (base ++ "/").data.isPrefixOf d.data

/-- Does some file live below directory `d`? -/
def hasFileUnder (fs : Fs) (d : String) : Bool :=
  fs.files.any (fun kv => (d ++ "/").data.isPrefixOf kv.1.data)

/-- Model of `filesystem.prune_empty_dirs`: bottom-up removal of empty directories under
the base path; files are never touched. -/
def prune_empty_dirs (fs : Fs) (base : String) : Fs :=
  if !(fs.existsPath base) then fs
  else { fs with dirs := (fs.dirs.filter
      (fun d => !(properlyUnder d base) || hasFileUnder fs d)) }

/-- Model of `AppConfig` from `app/core/config.py` (the fields the engine reads). -/
structure AppConfig where
  instances_path : String
  game_path : String
  backup_dir : Option String := none
  auto_confirm_new_files : Bool := true
  auto_confirm_updates : Bool := false
  auto_confirm_removals : Bool := false
deriving Repr, DecidableEq

/-- One `progress_callback(message, current, total)` invocation. -/
structure ProgressEvent where
  message : String
  current : Nat
  total : Nat
deriving Repr, DecidableEq

/-- The mutable state threaded through `SyncEngine.execute_plan`: the
filesystem, the (appendable) `plan.updates` and `plan.skipped` lists, the
`processed` counter and the progress events emitted so far. -/
structure ExecState where
  fs : Fs
  updates : List FileChange
  skipped : List FileChange
  processed : Nat
  events : List ProgressEvent
deriving Repr, DecidableEq

/-- The nested `tick` helper of `execute_plan`: bump `processed` and report
progress. -/
def tick (total : Nat) (msg : String) (s : ExecState) : ExecState :=
  { s with processed := s.processed + 1
           events := s.events ++ [{ message := msg, current := s.processed + 1, total := total }] }

/-- Model of `change.target_path or (target_path / change.relative_path)`. -/
def changeDest (target_path : String) (c : FileChange) : String :=
  c.target_path.getD (joinPath target_path c.relative_path)

/-- Model of `confirm(change) if confirm else False`. -/
def callbackAllows (cb : Option (FileChange → Bool)) (c : FileChange) : Bool :=
  match cb with
  | some f => f c
  | none => false

/-- An update/removal is declined when auto-confirm is off and the callback
does not allow it (syncer.py lines 109-111 / 131-133). -/
def confirmationDeclined (auto_confirm : Bool) (cb : Option (FileChange → Bool))
    (c : FileChange) : Bool :=
  !auto_confirm && !(callbackAllows cb c)

/-- One iteration of the adds loop (syncer.py lines 90-103). -/
def execAddStep (target_path : String) (total : Nat) (s : ExecState) (c : FileChange) :
    ExecState :=
  let destination := changeDest target_path c
  if s.fs.existsPath destination then
    { s with updates := s.updates ++ [{ c with action := FileAction.update }] }
  else
    match c.source_path with
    | none => s
    | some sp =>
      match s.fs.readFile sp with
      | none => s
      | some content =>
        tick total ("Copied " ++ c.relative_path)
          { s with fs := s.fs.writeFile destination content }

/-- The filesystem effect of a confirmed update (syncer.py lines 117-123):
if the source file exists, optionally back the destination up and overwrite
it; otherwise (drift-only update) leave the filesystem untouched. -/
def applyUpdateCopy (target_path : String) (backup_root : Option String) (now : String)
    (s : ExecState) (c : FileChange) : Fs :=
  let destination := changeDest target_path c
  match c.source_path with
  | some sp =>
    match s.fs.readFile sp with
    | some content =>
      let fs1 :=
        match backup_root with
        | some br =>
          if s.fs.existsPath destination then createBackup s.fs destination br now
          else s.fs
        | none => s.fs
      fs1.writeFile destination content
    | none => s.fs
  | none => s.fs

/-- The filesystem effect of a confirmed removal (syncer.py lines 139-141):
optionally back the destination up, then delete it. -/
def applyRemovalDelete (target_path : String) (backup_root : Option String) (now : String)
    (s : ExecState) (c : FileChange) : Fs :=
  let destination := changeDest target_path c
  let fs1 :=
    match backup_root with
    | some br => createBackup s.fs destination br now
    | none => s.fs
  fs1.removeFile destination

/-- One iteration of the updates loop (syncer.py lines 105-124). -/
def execUpdateStep (target_path : String) (total : Nat) (auto_confirm_updates : Bool)
    (confirm_update : Option (FileChange → Bool)) (backup_root : Option String)
    (now : String) (s : ExecState) (c : FileChange) : ExecState :=
  if confirmationDeclined auto_confirm_updates confirm_update c then
    tick total ("Skipped " ++ c.relative_path) { s with skipped := s.skipped ++ [c] }
  else
    tick total ("Updated " ++ c.relative_path)
      { s with fs := applyUpdateCopy target_path backup_root now s c }

/-- One iteration of the removals loop (syncer.py lines 126-143). -/
def execRemovalStep (target_path : String) (total : Nat) (auto_confirm_removals : Bool)
    (confirm_removal : Option (FileChange → Bool)) (backup_root : Option String)
    (now : String) (s : ExecState) (c : FileChange) : ExecState :=
  if !(s.fs.existsPath (changeDest target_path c)) then s
  else if confirmationDeclined auto_confirm_removals confirm_removal c then
    tick total ("Kept " ++ c.relative_path) { s with skipped := s.skipped ++ [c] }
  else
    tick total ("Removed " ++ c.relative_path)
      { s with fs := applyRemovalDelete target_path backup_root now s c }

/-- Sequential pass over a change list with a given per-item step. -/
def runPass (step : ExecState → FileChange → ExecState) :
    List FileChange → ExecState → ExecState
  | [], s => s
  | c :: rest, s => runPass step rest (step s c)

/-- The result visible after `execute_plan`: the filesystem, the plan object
(as mutated during execution), the history store, and the progress events. -/
structure ExecResult where
  fs : Fs
  plan : SyncPlan
  store : StoreState
  events : List ProgressEvent
deriving Repr, DecidableEq

/-- Initial executor state: the plan's updates/skipped lists and a zeroed
progress counter. -/
def execS0 (fs : Fs) (plan : SyncPlan) : ExecState :=
  { fs := fs, updates := plan.updates, skipped := plan.skipped, processed := 0, events := [] }

/-- State after the adds pass. -/
def execS1 (tp : String) (total : Nat) (fs : Fs) (plan : SyncPlan) : ExecState :=
  runPass (execAddStep tp total) plan.adds (execS0 fs plan)

/-- State after the updates pass, which iterates over the snapshot
`list(plan.updates)` taken only after the adds pass has completed
(syncer.py line 105). -/
def execS2 (tp : String) (total : Nat) (acu : Bool) (cu : Option (FileChange → Bool))
    (br : Option String) (now : String) (fs : Fs) (plan : SyncPlan) : ExecState :=
  runPass (execUpdateStep tp total acu cu br now) (execS1 tp total fs plan).updates
    (execS1 tp total fs plan)

/-- State after the removals pass. -/
def execS3 (tp : String) (total : Nat) (acu : Bool) (cu : Option (FileChange → Bool))
    (acr : Bool) (cr : Option (FileChange → Bool)) (br : Option String) (now : String)
    (fs : Fs) (plan : SyncPlan) : ExecState :=
  runPass (execRemovalStep tp total acr cr br now) plan.removals
    (execS2 tp total acu cu br now fs plan)

/-- Body of `SyncEngine.execute_plan` after the target-path check
(syncer.py lines 72-146): the adds pass, the updates pass over a snapshot
`list(plan.updates)` taken after the adds pass, the removals pass, then the
history snapshot persistence and empty-directory pruning. -/
def executeCore (cfg : AppConfig) (store : StoreState) (fs : Fs) (modpackName : String)
    (plan : SyncPlan) (snapshot_payload : List (String × HistInfo))
    (auto_confirm_updates_arg auto_confirm_removals_arg : Option Bool)
    (create_backups : Bool)
    (confirm_update confirm_removal : Option (FileChange → Bool))
    (now : String) : ExecResult :=
  let target_path := cfg.game_path
  let backup_root := if create_backups then cfg.backup_dir else none
  let total_items := plan.adds.length + plan.updates.length + plan.removals.length
  let acu := auto_confirm_updates_arg.getD cfg.auto_confirm_updates
  let acr := auto_confirm_removals_arg.getD cfg.auto_confirm_removals
  let s1 := execS1 target_path total_items fs plan
  let s3 := execS3 target_path total_items acu confirm_update acr confirm_removal
      backup_root now fs plan
  { fs := prune_empty_dirs s3.fs cfg.game_path
    plan := { adds := plan.adds, updates := s1.updates,
              removals := plan.removals, skipped := s3.skipped }
    store := update_file_snapshot store modpackName snapshot_payload now
    events := s3.events }

/-- Model of `SyncEngine.execute_plan` (syncer.py lines 53-146): validate that the
target path exists (raising `ValueError` otherwise), then run the three
passes and persist the snapshot. -/
def execute_plan (cfg : AppConfig) (store : StoreState) (fs : Fs) (modpackName : String)
    (plan : SyncPlan) (snapshot_payload : List (String × HistInfo))
    (auto_confirm_updates_arg auto_confirm_removals_arg : Option Bool)
    (create_backups : Bool)
    (confirm_update confirm_removal : Option (FileChange → Bool))
    (now : String) : Except String ExecResult :=
  if !(fs.existsPath cfg.game_path) then
    Except.error ("Target game path does not exist: " ++ cfg.game_path)
  else
    Except.ok (executeCore cfg store fs modpackName plan snapshot_payload
      auto_confirm_updates_arg auto_confirm_removals_arg create_backups
      confirm_update confirm_removal now)

/-! ## Association-list lemmas -/

theorem alookup_nil {α : Type} (k : String) : alookup ([] : List (String × α)) k = none := rfl

theorem alookup_cons {α : Type} (kv : String × α) (l : List (String × α)) (k : String) :
    alookup (kv :: l) k = if kv.1 == k then some kv.2 else alookup l k := by
  cases h : kv.1 == k with
  | true => simp [alookup, List.find?_cons_of_pos, h]
  | false => simp [alookup, List.find?_cons_of_neg, h]

theorem alookup_eq_none {α : Type} {l : List (String × α)} {k : String} :
    alookup l k = none ↔ ∀ kv ∈ l, kv.1 ≠ k := by
  induction l with
  | nil => simp [alookup_nil]
  | cons kv rest ih =>
    rw [alookup_cons]
    cases h : kv.1 == k with
    | true =>
      simp only [if_pos rfl]
      constructor
      · intro hc; exact absurd hc (by simp)
      · intro hall; exact absurd (eq_of_beq h) (hall kv (by simp))
    | false =>
      have hne : kv.1 ≠ k := by
        intro he; rw [he] at h; simp at h
      simp [h, ih, hne]

theorem mem_of_alookup_eq_some {α : Type} {l : List (String × α)} {k : String} {v : α}
    (h : alookup l k = some v) : (k, v) ∈ l := by
  induction l with
  | nil => simp [alookup_nil] at h
  | cons kv rest ih =>
    rw [alookup_cons] at h
    by_cases hb : kv.1 = k
    · rw [if_pos (by simp [hb])] at h
      injection h with hv
      have hkv : (k, v) = kv := by
        cases kv
        simp only [Prod.mk.injEq]
        exact ⟨hb.symm, hv.symm⟩
      rw [hkv]
      exact List.mem_cons_self _ _
    · rw [if_neg (by simp [hb])] at h
      exact List.mem_cons_of_mem _ (ih h)

theorem alookup_ne_none_of_mem {α : Type} {l : List (String × α)} {k : String} {v : α}
    (h : (k, v) ∈ l) : alookup l k ≠ none := by
  intro hn
  exact alookup_eq_none.mp hn (k, v) h rfl

theorem alookup_assocSet_self {α : Type} (l : List (String × α)) (k : String) (v : α) :
    alookup (assocSet l k v) k = some v := by
  induction l with
  | nil => simp [assocSet, alookup_cons]
  | cons kv rest ih =>
    rw [assocSet]
    cases h : kv.1 == k with
    | true => simp [alookup_cons]
    | false => simp [alookup_cons, h, ih]

theorem assocSet_ne_nil {α : Type} (l : List (String × α)) (k : String) (v : α) :
    assocSet l k v ≠ [] := by
  cases l with
  | nil => simp [assocSet]
  | cons kv rest =>
    rw [assocSet]
    split <;> simp

/-- Distinct keys determine values uniquely. -/
theorem nodupKeys_eq {α : Type} {l : List (String × α)} {k : String} {a b : α}
    (hnd : (l.map Prod.fst).Nodup) (ha : (k, a) ∈ l) (hb : (k, b) ∈ l) : a = b := by
  induction l with
  | nil => simp at ha
  | cons kv rest ih =>
    simp only [List.map_cons, List.nodup_cons] at hnd
    rcases List.mem_cons.mp ha with ha1 | ha1
    · rcases List.mem_cons.mp hb with hb1 | hb1
      · rw [← ha1] at hb1; injection hb1 with _ h2; exact h2.symm ▸ rfl
      · exfalso
        apply hnd.1
        rw [← ha1]
        exact List.mem_map.mpr ⟨(k, b), hb1, rfl⟩
    · rcases List.mem_cons.mp hb with hb1 | hb1
      · exfalso
        apply hnd.1
        rw [← hb1]
        exact List.mem_map.mpr ⟨(k, a), ha1, rfl⟩
      · exact ih hnd.2 ha1 hb1

/-! ## Plan-builder projections -/

theorem build_adds (history : SyncHistory) (ss ts : List (String × SnapshotEntry))
    (tp : String) (tex : String → Bool) :
    (build_sync_plan history ss ts tp tex).1.adds =
      (ss.filter (fun kv => (alookup ts kv.1).isNone)).map
        (fun kv => mkSourceChange tp kv.1 kv.2) := rfl

theorem build_updates (history : SyncHistory) (ss ts : List (String × SnapshotEntry))
    (tp : String) (tex : String → Bool) :
    (build_sync_plan history ss ts tp tex).1.updates =
      (ss.filterMap (fun kv =>
        match alookup ts kv.1 with
        | some te =>
          if !(te.hash_digest == kv.2.hash_digest) then
            some { mkSourceChange tp kv.1 kv.2 with
                     action := FileAction.update, reason := some "Content differs" }
          else none
        | none => none)) ++
      ((history.files.filter (fun kv => (alookup ss kv.1).isNone)).filterMap (fun kv =>
        if driftDetected kv.2 (alookup ts kv.1) then some (mkDriftChange tp kv.1)
        else none)) := rfl

theorem build_removals (history : SyncHistory) (ss ts : List (String × SnapshotEntry))
    (tp : String) (tex : String → Bool) :
    (build_sync_plan history ss ts tp tex).1.removals =
      (history.files.filter (fun kv => (alookup ss kv.1).isNone)).filterMap (fun kv =>
        if driftDetected kv.2 (alookup ts kv.1) then none
        else if tex (joinPath tp kv.1) then some (mkRemovalChange tp kv.1)
        else none) := rfl

theorem build_skipped (history : SyncHistory) (ss ts : List (String × SnapshotEntry))
    (tp : String) (tex : String → Bool) :
    (build_sync_plan history ss ts tp tex).1.skipped =
      ss.filterMap (fun kv =>
        match alookup ts kv.1 with
        | some te =>
          if !(te.hash_digest == kv.2.hash_digest) then none
          else some { mkSourceChange tp kv.1 kv.2 with action := FileAction.skip }
        | none => none) := rfl

theorem mkSourceChange_rel (tp k : String) (e : SnapshotEntry) :
    (mkSourceChange tp k e).relative_path = k := rfl

theorem mkDriftChange_rel (tp k : String) : (mkDriftChange tp k).relative_path = k := rfl

theorem mkRemovalChange_rel (tp k : String) : (mkRemovalChange tp k).relative_path = k := rfl

theorem driftDetected_true {info : HistInfo} {te : SnapshotEntry} {D : String}
    (hD : info.hash = some D) (hDne : D ≠ "") (hdiff : te.hash_digest ≠ D) :
    driftDetected info (some te) = true := by
  simp [driftDetected, hD, hDne, hdiff]

theorem driftDetected_false_of_none {info : HistInfo} :
    driftDetected info none = false := by
  cases h : info.hash <;> simp [driftDetected, h]

theorem driftDetected_false_of_same {info : HistInfo} {te : SnapshotEntry}
    (h : info.hash = some te.hash_digest) : driftDetected info (some te) = false := by
  simp [driftDetected, h]

/-- Claim C1: A path recorded in history with a non-empty digest `D`, absent from
the current source snapshot, and present in the target snapshot with a digest
different from `D`, is classified by `build_sync_plan` as an update whose
reason indicates external drift, and it never appears in the plan's removals. -/
theorem claim_c1_drift_update_never_removal
    (history : SyncHistory) (ss ts : List (String × SnapshotEntry))
    (tp : String) (tex : String → Bool) (p D : String) (info : HistInfo)
    (te : SnapshotEntry)
    (hnd : (history.files.map Prod.fst).Nodup)
    (hhist : alookup history.files p = some info)
    (hD : info.hash = some D) (hDne : D ≠ "")
    (hsrc : alookup ss p = none)
    (htgt : alookup ts p = some te)
    (hdiff : te.hash_digest ≠ D) :
    (∃ c ∈ (build_sync_plan history ss ts tp tex).1.updates,
       c.relative_path = p ∧ c.reason = some "Target file changed since last sync") ∧
    (∀ c ∈ (build_sync_plan history ss ts tp tex).1.removals, c.relative_path ≠ p) := by
  have hdrift : driftDetected info (alookup ts p) = true := by
    rw [htgt]; exact driftDetected_true hD hDne hdiff
  constructor
  · refine ⟨mkDriftChange tp p, ?_, mkDriftChange_rel tp p, rfl⟩
    rw [build_updates]
    apply List.mem_append_right
    apply List.mem_filterMap.mpr
    refine ⟨(p, info), ?_, ?_⟩
    · exact List.mem_filter.mpr ⟨mem_of_alookup_eq_some hhist, by simp [hsrc]⟩
    · simp [hdrift]
  · intro c hc
    rw [build_removals] at hc
    obtain ⟨kv, hkvmem, hkv⟩ := List.mem_filterMap.mp hc
    intro hrel
    have hkey : kv.1 = p := by
      by_cases hdr : driftDetected kv.2 (alookup ts kv.1) = true
      · simp [hdr] at hkv
      · simp only [Bool.not_eq_true] at hdr
        rw [if_neg (by simp [hdr])] at hkv
        by_cases hexz : tex (joinPath tp kv.1) = true
        · rw [if_pos hexz] at hkv
          injection hkv with hkv
          rw [← hkv] at hrel
          exact hrel
        · simp [hexz] at hkv
    have hkvfiles : kv ∈ history.files := (List.mem_filter.mp hkvmem).1
    have hkveq : kv.2 = info := by
      have h1 : (p, kv.2) ∈ history.files := by rw [← hkey]; exact hkvfiles
      exact nodupKeys_eq hnd h1 (mem_of_alookup_eq_some hhist)
    rw [hkey, hkveq, hdrift] at hkv
    simp at hkv

/-- Claim C3: A path present in both snapshots with identical digests is placed
in the plan's skipped list, and never in adds or updates. -/
theorem claim_c3_identical_digests_skipped
    (history : SyncHistory) (ss ts : List (String × SnapshotEntry))
    (tp : String) (tex : String → Bool) (p : String) (se te : SnapshotEntry)
    (hndss : (ss.map Prod.fst).Nodup)
    (hs : alookup ss p = some se)
    (ht : alookup ts p = some te)
    (heq : se.hash_digest = te.hash_digest) :
    (∃ c ∈ (build_sync_plan history ss ts tp tex).1.skipped,
       c.relative_path = p ∧ c.action = FileAction.skip) ∧
    (∀ c ∈ (build_sync_plan history ss ts tp tex).1.adds, c.relative_path ≠ p) ∧
    (∀ c ∈ (build_sync_plan history ss ts tp tex).1.updates, c.relative_path ≠ p) := by
  refine ⟨?_, ?_, ?_⟩
  · refine ⟨{ mkSourceChange tp p se with action := FileAction.skip }, ?_, rfl, rfl⟩
    rw [build_skipped]
    apply List.mem_filterMap.mpr
    refine ⟨(p, se), mem_of_alookup_eq_some hs, ?_⟩
    simp only [ht]
    rw [if_neg (by simp [heq])]
  · intro c hc hrel
    rw [build_adds] at hc
    obtain ⟨kv, hkvmem, hkv⟩ := List.mem_map.mp hc
    have hkey : kv.1 = p := by rw [← hkv] at hrel; exact hrel
    have := (List.mem_filter.mp hkvmem).2
    rw [hkey, ht] at this
    simp at this
  · intro c hc hrel
    rw [build_updates] at hc
    rcases List.mem_append.mp hc with hc1 | hc1
    · obtain ⟨kv, hkvmem, hkv⟩ := List.mem_filterMap.mp hc1
      split at hkv
      case h_2 => exact absurd hkv (by simp)
      case h_1 te' hlu =>
        by_cases hd : te'.hash_digest = kv.2.hash_digest
        · rw [if_neg (by simp [hd])] at hkv
          exact absurd hkv (by simp)
        · rw [if_pos (by simp [hd])] at hkv
          injection hkv with hkv
          have hkey : kv.1 = p := by rw [← hkv] at hrel; exact hrel
          have hkv2 : kv.2 = se := by
            have h1 : (p, kv.2) ∈ ss := by rw [← hkey]; exact hkvmem
            exact nodupKeys_eq hndss h1 (mem_of_alookup_eq_some hs)
          rw [hkey, ht] at hlu
          injection hlu with hlu
          rw [← hlu, hkv2] at hd
          exact hd heq.symm
    · obtain ⟨kv, hkvmem, hkv⟩ := List.mem_filterMap.mp hc1
      have hkey : kv.1 = p := by
        by_cases hdr : driftDetected kv.2 (alookup ts kv.1) = true
        · rw [if_pos hdr] at hkv
          injection hkv with hkv
          rw [← hkv] at hrel
          exact hrel
        · simp [hdr] at hkv
      have := (List.mem_filter.mp hkvmem).2
      rw [hkey] at this
      simp [hs] at this

/-- Inversion for the adds list of a built plan. -/
theorem mem_build_adds {history : SyncHistory} {ss ts : List (String × SnapshotEntry)}
    {tp : String} {tex : String → Bool} {c : FileChange}
    (hc : c ∈ (build_sync_plan history ss ts tp tex).1.adds) :
    ∃ kv ∈ ss, alookup ts kv.1 = none ∧ c = mkSourceChange tp kv.1 kv.2 := by
  rw [build_adds] at hc
  obtain ⟨kv, hkvmem, hkv⟩ := List.mem_map.mp hc
  have h1 := (List.mem_filter.mp hkvmem).1
  have h2 := (List.mem_filter.mp hkvmem).2
  exact ⟨kv, h1, by simpa [Option.isNone_iff_eq_none] using h2, hkv.symm⟩

/-- Inversion for the updates list of a built plan: the change comes either
from the source loop (content differs) or from the history loop (drift). -/
theorem mem_build_updates {history : SyncHistory} {ss ts : List (String × SnapshotEntry)}
    {tp : String} {tex : String → Bool} {c : FileChange}
    (hc : c ∈ (build_sync_plan history ss ts tp tex).1.updates) :
    (∃ kv ∈ ss, (∃ te, alookup ts kv.1 = some te ∧ te.hash_digest ≠ kv.2.hash_digest) ∧
       c = { mkSourceChange tp kv.1 kv.2 with
               action := FileAction.update, reason := some "Content differs" }) ∨
    (∃ kv ∈ history.files, alookup ss kv.1 = none ∧
       driftDetected kv.2 (alookup ts kv.1) = true ∧ c = mkDriftChange tp kv.1) := by
  rw [build_updates] at hc
  rcases List.mem_append.mp hc with hc1 | hc1
  · left
    obtain ⟨kv, hkvmem, hkv⟩ := List.mem_filterMap.mp hc1
    split at hkv
    case h_2 => exact absurd hkv (by simp)
    case h_1 te' hlu =>
      by_cases hd : te'.hash_digest = kv.2.hash_digest
      · rw [if_neg (by simp [hd])] at hkv
        exact absurd hkv (by simp)
      · rw [if_pos (by simp [hd])] at hkv
        injection hkv with hkv
        exact ⟨kv, hkvmem, ⟨te', hlu, hd⟩, hkv.symm⟩
  · right
    obtain ⟨kv, hkvmem, hkv⟩ := List.mem_filterMap.mp hc1
    have h1 := (List.mem_filter.mp hkvmem).1
    have h2 := (List.mem_filter.mp hkvmem).2
    by_cases hdr : driftDetected kv.2 (alookup ts kv.1) = true
    · rw [if_pos hdr] at hkv
      injection hkv with hkv
      exact ⟨kv, h1, by simpa [Option.isNone_iff_eq_none] using h2, hdr, hkv.symm⟩
    · rw [if_neg hdr] at hkv
      exact absurd hkv (by simp)

/-- Inversion for the removals list of a built plan. -/
theorem mem_build_removals {history : SyncHistory} {ss ts : List (String × SnapshotEntry)}
    {tp : String} {tex : String → Bool} {c : FileChange}
    (hc : c ∈ (build_sync_plan history ss ts tp tex).1.removals) :
    ∃ kv ∈ history.files, alookup ss kv.1 = none ∧
      driftDetected kv.2 (alookup ts kv.1) = false ∧
      tex (joinPath tp kv.1) = true ∧ c = mkRemovalChange tp kv.1 := by
  rw [build_removals] at hc
  obtain ⟨kv, hkvmem, hkv⟩ := List.mem_filterMap.mp hc
  have h1 := (List.mem_filter.mp hkvmem).1
  have h2 := (List.mem_filter.mp hkvmem).2
  by_cases hdr : driftDetected kv.2 (alookup ts kv.1) = true
  · rw [if_pos hdr] at hkv
    exact absurd hkv (by simp)
  · rw [if_neg hdr] at hkv
    by_cases htex : tex (joinPath tp kv.1) = true
    · rw [if_pos htex] at hkv
      injection hkv with hkv
      refine ⟨kv, h1, by simpa [Option.isNone_iff_eq_none] using h2, ?_, htex, hkv.symm⟩
      simpa using hdr
    · rw [if_neg htex] at hkv
      exact absurd hkv (by simp)

/-- Inversion for the skipped list of a built plan. -/
theorem mem_build_skipped {history : SyncHistory} {ss ts : List (String × SnapshotEntry)}
    {tp : String} {tex : String → Bool} {c : FileChange}
    (hc : c ∈ (build_sync_plan history ss ts tp tex).1.skipped) :
    ∃ kv ∈ ss, (∃ te, alookup ts kv.1 = some te ∧ te.hash_digest = kv.2.hash_digest) ∧
      c = { mkSourceChange tp kv.1 kv.2 with action := FileAction.skip } := by
  rw [build_skipped] at hc
  obtain ⟨kv, hkvmem, hkv⟩ := List.mem_filterMap.mp hc
  split at hkv
  case h_2 => exact absurd hkv (by simp)
  case h_1 te' hlu =>
    by_cases hd : te'.hash_digest = kv.2.hash_digest
    · rw [if_neg (by simp [hd])] at hkv
      injection hkv with hkv
      exact ⟨kv, hkvmem, ⟨te', hlu, hd⟩, hkv.symm⟩
    · rw [if_pos (by simp [hd])] at hkv
      exact absurd hkv (by simp)

/-- Claim C4: A path recorded in history, absent from the source snapshot, and
not drift-detected (the target snapshot's digest equals the recorded one, or
the target snapshot lacks the path): if the target file exists it is placed in
removals; if it does not, no `FileChange` for it appears in any of the plan's
four lists. -/
theorem claim_c4_removal_or_nothing
    (history : SyncHistory) (ss ts : List (String × SnapshotEntry))
    (tp : String) (tex : String → Bool) (p : String) (info : HistInfo)
    (hnd : (history.files.map Prod.fst).Nodup)
    (hhist : alookup history.files p = some info)
    (hsrc : alookup ss p = none)
    (hnodrift : alookup ts p = none ∨
      ∃ te, alookup ts p = some te ∧ info.hash = some te.hash_digest) :
    (tex (joinPath tp p) = true →
       ∃ c ∈ (build_sync_plan history ss ts tp tex).1.removals,
         c.relative_path = p ∧ c.action = FileAction.delete) ∧
    (tex (joinPath tp p) = false →
       ∀ c ∈ (build_sync_plan history ss ts tp tex).1.adds ++
             (build_sync_plan history ss ts tp tex).1.updates ++
             (build_sync_plan history ss ts tp tex).1.removals ++
             (build_sync_plan history ss ts tp tex).1.skipped,
         c.relative_path ≠ p) := by
  have hdrift : driftDetected info (alookup ts p) = false := by
    rcases hnodrift with h | ⟨te, hte, hh⟩
    · rw [h]; exact driftDetected_false_of_none
    · rw [hte]; exact driftDetected_false_of_same hh
  have hssne : ∀ kv ∈ ss, kv.1 ≠ p := alookup_eq_none.mp hsrc
  constructor
  · intro htex
    refine ⟨mkRemovalChange tp p, ?_, mkRemovalChange_rel tp p, rfl⟩
    rw [build_removals]
    apply List.mem_filterMap.mpr
    refine ⟨(p, info), ?_, ?_⟩
    · exact List.mem_filter.mpr ⟨mem_of_alookup_eq_some hhist, by simp [hsrc]⟩
    · simp [hdrift, htex]
  · intro htex c hc hrel
    simp only [List.mem_append] at hc
    rcases hc with ((hc | hc) | hc) | hc
    · obtain ⟨kv, hkvmem, _, hceq⟩ := mem_build_adds hc
      apply hssne kv hkvmem
      rw [← hrel, hceq, mkSourceChange_rel]
    · rcases mem_build_updates hc with ⟨kv, hkvmem, _, hceq⟩ | ⟨kv, hkvmem, _, hdr, hceq⟩
      · apply hssne kv hkvmem
        rw [← hrel, hceq]
        rfl
      · have hkey : kv.1 = p := by rw [← hrel, hceq, mkDriftChange_rel]
        have hkveq : kv.2 = info := by
          have h1 : (p, kv.2) ∈ history.files := by rw [← hkey]; exact hkvmem
          exact nodupKeys_eq hnd h1 (mem_of_alookup_eq_some hhist)
        rw [hkey, hkveq, hdrift] at hdr
        exact absurd hdr (by simp)
    · obtain ⟨kv, hkvmem, _, _, htex', hceq⟩ := mem_build_removals hc
      have hkey : kv.1 = p := by rw [← hrel, hceq, mkRemovalChange_rel]
      rw [hkey, htex] at htex'
      exact absurd htex' (by simp)
    · obtain ⟨kv, hkvmem, _, hceq⟩ := mem_build_skipped hc
      apply hssne kv hkvmem
      rw [← hrel, hceq]
      rfl

/-- Claim C5: In every built plan, a relative path appears in at most one of
the adds, updates, and removals lists. -/
theorem claim_c5_at_most_one_action_list
    (history : SyncHistory) (ss ts : List (String × SnapshotEntry))
    (tp : String) (tex : String → Bool) (p : String)
    (hnd : (history.files.map Prod.fst).Nodup) :
    ¬((∃ c ∈ (build_sync_plan history ss ts tp tex).1.adds, c.relative_path = p) ∧
      (∃ c ∈ (build_sync_plan history ss ts tp tex).1.updates, c.relative_path = p)) ∧
    ¬((∃ c ∈ (build_sync_plan history ss ts tp tex).1.adds, c.relative_path = p) ∧
      (∃ c ∈ (build_sync_plan history ss ts tp tex).1.removals, c.relative_path = p)) ∧
    ¬((∃ c ∈ (build_sync_plan history ss ts tp tex).1.updates, c.relative_path = p) ∧
      (∃ c ∈ (build_sync_plan history ss ts tp tex).1.removals, c.relative_path = p)) := by
  refine ⟨?_, ?_, ?_⟩
  · rintro ⟨⟨ca, hca, hcarel⟩, ⟨cu, hcu, hcurel⟩⟩
    obtain ⟨kv, hkvmem, hnone, hceq⟩ := mem_build_adds hca
    have hkey : kv.1 = p := by rw [← hcarel, hceq, mkSourceChange_rel]
    rcases mem_build_updates hcu with ⟨kv', hkvmem', ⟨te, hte, _⟩, hceq'⟩ |
        ⟨kv', hkvmem', hssnone, _, hceq'⟩
    · have hkey' : kv'.1 = p := by rw [← hcurel, hceq']; rfl
      rw [hkey] at hnone
      rw [hkey'] at hte
      rw [hnone] at hte
      exact absurd hte (by simp)
    · apply alookup_ne_none_of_mem (l := ss) (k := p) (v := kv.2) ?_ ?_
      · rw [← hkey]
        exact Prod.mk.eta ▸ hkvmem
      · have hkey' : kv'.1 = p := by rw [← hcurel, hceq', mkDriftChange_rel]
        rw [hkey'] at hssnone
        exact hssnone
  · rintro ⟨⟨ca, hca, hcarel⟩, ⟨cr, hcr, hcrrel⟩⟩
    obtain ⟨kv, hkvmem, hnone, hceq⟩ := mem_build_adds hca
    have hkey : kv.1 = p := by rw [← hcarel, hceq, mkSourceChange_rel]
    obtain ⟨kv', hkvmem', hssnone, _, _, hceq'⟩ := mem_build_removals hcr
    have hkey' : kv'.1 = p := by rw [← hcrrel, hceq', mkRemovalChange_rel]
    apply alookup_ne_none_of_mem (l := ss) (k := p) (v := kv.2) ?_ ?_
    · rw [← hkey]
      exact Prod.mk.eta ▸ hkvmem
    · rw [hkey'] at hssnone
      exact hssnone
  · rintro ⟨⟨cu, hcu, hcurel⟩, ⟨cr, hcr, hcrrel⟩⟩
    obtain ⟨kv', hkvmem', hssnone, hdrf, _, hceq'⟩ := mem_build_removals hcr
    have hkey' : kv'.1 = p := by rw [← hcrrel, hceq', mkRemovalChange_rel]
    rcases mem_build_updates hcu with ⟨kv, hkvmem, ⟨te, hte, _⟩, hceq⟩ |
        ⟨kv, hkvmem, _, hdr, hceq⟩
    · have hkey : kv.1 = p := by rw [← hcurel, hceq]; rfl
      apply alookup_ne_none_of_mem (l := ss) (k := p) (v := kv.2) ?_ ?_
      · rw [← hkey]
        exact Prod.mk.eta ▸ hkvmem
      · rw [hkey'] at hssnone
        exact hssnone
    · have hkey : kv.1 = p := by rw [← hcurel, hceq, mkDriftChange_rel]
      have hkveq : kv.2 = kv'.2 := by
        have h1 : (p, kv.2) ∈ history.files := by rw [← hkey]; exact Prod.mk.eta ▸ hkvmem
        have h2 : (p, kv'.2) ∈ history.files := by rw [← hkey']; exact Prod.mk.eta ▸ hkvmem'
        exact nodupKeys_eq hnd h1 h2
      rw [hkey, hkveq] at hdr
      rw [hkey'] at hdrf
      rw [hdrf] at hdr
      exact absurd hdr (by simp)

/-! ## History store: round trip -/

theorem isEmpty_assocSet {α : Type} (l : List (String × α)) (k : String) (v : α) :
    (assocSet l k v).isEmpty = false := by
  cases h : assocSet l k v with
  | nil => exact absurd h (assocSet_ne_nil l k v)
  | cons a as => rfl

/-- Claim C8: Saving a history and then fetching it for the same source-tree
name yields a history whose `files`, `exclusions`, and `last_synced` equal
those saved. -/
theorem claim_c8_save_get_roundtrip (s : StoreState) (h : SyncHistory) :
    (get_history (save_history s h) h.modpack_name).1.files = h.files ∧
    (get_history (save_history s h) h.modpack_name).1.exclusions = h.exclusions ∧
    (get_history (save_history s h) h.modpack_name).1.last_synced = h.last_synced := by
  have hcache : (save_history s h).cache = assocSet s.cache h.modpack_name h := rfl
  have hne : ((save_history s h).cache).isEmpty = false := by
    rw [hcache]; exact isEmpty_assocSet _ _ _
  have hload : load_all (save_history s h) = ((save_history s h).cache, save_history s h) := by
    rw [load_all, hne]
    simp
  have hlook : alookup (save_history s h).cache h.modpack_name = some h := by
    rw [hcache]; exact alookup_assocSet_self _ _ _
  rw [get_history, hload]
  simp [hlook]

/-! ## Message prefixes (progress-event classification) -/

/-- Does message `m` start with prefix string `p`? -/
def msgStarts (p m : String) : Bool := p.data.isPrefixOf m.data

theorem msgStarts_self (p r : String) : msgStarts p (p ++ r) = true := by
  rw [msgStarts, String.data_append]
  exact List.isPrefixOf_iff_prefix.mpr (List.prefix_append _ _)

theorem append_ne_empty_left (p r : String) (hp : p.data ≠ []) : (p ++ r) ≠ "" := by
  intro h
  have hd := congrArg String.data h
  rw [String.data_append] at hd
  simp only [List.append_eq_nil] at hd
  exact hp hd.1

/-! ## Executor helper lemmas -/

theorem beq_false_of_ne {a b : String} (h : a ≠ b) : (a == b) = false := by
  cases hc : a == b with
  | true => exact absurd (eq_of_beq hc) h
  | false => rfl

theorem alookup_assocSet_ne {α : Type} (l : List (String × α)) (k k' : String) (v : α)
    (h : k' ≠ k) : alookup (assocSet l k v) k' = alookup l k' := by
  induction l with
  | nil =>
    rw [assocSet, alookup_cons, alookup_nil,
      if_neg (by simp [beq_false_of_ne (Ne.symm h)])]
  | cons kv rest ih =>
    rw [assocSet]
    cases hb : kv.1 == k with
    | true =>
      rw [if_pos rfl, alookup_cons, alookup_cons]
      have h1 : (k == k') = false := beq_false_of_ne (Ne.symm h)
      have h2 : (kv.1 == k') = false := by rw [eq_of_beq hb]; exact h1
      rw [if_neg (by simp [h1]), if_neg (by simp [h2])]
    | false =>
      rw [if_neg (by simp), alookup_cons, alookup_cons, ih]

theorem tick_fs (total : Nat) (msg : String) (s : ExecState) : (tick total msg s).fs = s.fs := rfl

theorem tick_updates (total : Nat) (msg : String) (s : ExecState) :
    (tick total msg s).updates = s.updates := rfl

theorem tick_skipped (total : Nat) (msg : String) (s : ExecState) :
    (tick total msg s).skipped = s.skipped := rfl

theorem tick_processed (total : Nat) (msg : String) (s : ExecState) :
    (tick total msg s).processed = s.processed + 1 := rfl

theorem tick_events (total : Nat) (msg : String) (s : ExecState) :
    (tick total msg s).events =
      s.events ++ [{ message := msg, current := s.processed + 1, total := total }] := rfl

theorem Fs.readFile_writeFile_of_ne (fs : Fs) (p q : String) (v : String) (h : p ≠ q) :
    (fs.writeFile q v).readFile p = fs.readFile p :=
  alookup_assocSet_ne fs.files q p v h

theorem Fs.dirs_writeFile (fs : Fs) (q v : String) : (fs.writeFile q v).dirs = fs.dirs := rfl

theorem Fs.readFile_none_of_not_existsPath {fs : Fs} {p : String}
    (h : fs.existsPath p = false) : fs.readFile p = none := by
  rw [Fs.existsPath] at h
  rcases Bool.or_eq_false_iff.mp h with ⟨h1, _⟩
  exact Option.not_isSome_iff_eq_none.mp (by simp [h1])

theorem runPass_nil (step : ExecState → FileChange → ExecState) (s : ExecState) :
    runPass step [] s = s := rfl

theorem runPass_cons (step : ExecState → FileChange → ExecState) (c : FileChange)
    (rest : List FileChange) (s : ExecState) :
    runPass step (c :: rest) s = runPass step rest (step s c) := rfl

/-! ## Adds pass -/

/-- Shape of the adds pass (syncer.py lines 90-103): events are appended with
consecutive counters and `Copied` messages, `plan.updates` grows by the
reclassified adds, `plan.skipped` is untouched, and ticks plus
reclassifications never exceed the number of adds. -/
theorem runAdds_main (tp : String) (total : Nat) (l : List FileChange) : ∀ (s : ExecState),
    ∃ E R,
      (runPass (execAddStep tp total) l s).events = s.events ++ E ∧
      (runPass (execAddStep tp total) l s).processed = s.processed + E.length ∧
      (runPass (execAddStep tp total) l s).updates = s.updates ++ R ∧
      (runPass (execAddStep tp total) l s).skipped = s.skipped ∧
      E.map ProgressEvent.current = List.range' (s.processed + 1) E.length ∧
      (∀ e ∈ E, e.total = total ∧ ∃ r, e.message = "Copied " ++ r) ∧
      E.length + R.length ≤ l.length ∧
      (∀ c ∈ R, ∃ c₀, c₀ ∈ l ∧ c = { c₀ with action := FileAction.update }) := by
  induction l with
  | nil =>
    intro s
    exact ⟨[], [], by simp [runPass_nil], by simp [runPass_nil], by simp [runPass_nil],
      by simp [runPass_nil], by simp [List.range'_zero], by simp, by simp, by simp⟩
  | cons c rest ih =>
    intro s
    rw [runPass_cons]
    by_cases hdest : s.fs.existsPath (changeDest tp c) = true
    · have hstep : execAddStep tp total s c =
          { s with updates := s.updates ++ [{ c with action := FileAction.update }] } := by
        simp [execAddStep, hdest]
      rw [hstep]
      obtain ⟨E, R, h1, h2, h3, h4, h5, h6, h7, h8⟩ :=
        ih { s with updates := s.updates ++ [{ c with action := FileAction.update }] }
      refine ⟨E, { c with action := FileAction.update } :: R, h1, h2, ?_, h4, h5, h6, ?_, ?_⟩
      · rw [h3]
        simp
      · simp only [List.length_cons]
        omega
      · intro c' hc'
        rcases List.mem_cons.mp hc' with hc' | hc'
        · exact ⟨c, List.mem_cons_self _ _, hc'⟩
        · obtain ⟨c₀, hc₀, hceq⟩ := h8 c' hc'
          exact ⟨c₀, List.mem_cons_of_mem _ hc₀, hceq⟩
    · cases hsp : c.source_path with
      | none =>
        have hstep : execAddStep tp total s c = s := by
          simp [execAddStep, hdest, hsp]
        rw [hstep]
        obtain ⟨E, R, h1, h2, h3, h4, h5, h6, h7, h8⟩ := ih s
        refine ⟨E, R, h1, h2, h3, h4, h5, h6, by simp only [List.length_cons]; omega, ?_⟩
        intro c' hc'
        obtain ⟨c₀, hc₀, hceq⟩ := h8 c' hc'
        exact ⟨c₀, List.mem_cons_of_mem _ hc₀, hceq⟩
      | some sp =>
        cases hrd : s.fs.readFile sp with
        | none =>
          have hstep : execAddStep tp total s c = s := by
            simp [execAddStep, hdest, hsp, hrd]
          rw [hstep]
          obtain ⟨E, R, h1, h2, h3, h4, h5, h6, h7, h8⟩ := ih s
          refine ⟨E, R, h1, h2, h3, h4, h5, h6, by simp only [List.length_cons]; omega, ?_⟩
          intro c' hc'
          obtain ⟨c₀, hc₀, hceq⟩ := h8 c' hc'
          exact ⟨c₀, List.mem_cons_of_mem _ hc₀, hceq⟩
        | some content =>
          have hstep : execAddStep tp total s c =
              tick total ("Copied " ++ c.relative_path)
                { s with fs := s.fs.writeFile (changeDest tp c) content } := by
            simp [execAddStep, hdest, hsp, hrd]
          rw [hstep]
          obtain ⟨E, R, h1, h2, h3, h4, h5, h6, h7, h8⟩ :=
            ih (tick total ("Copied " ++ c.relative_path)
                { s with fs := s.fs.writeFile (changeDest tp c) content })
          refine ⟨{ message := "Copied " ++ c.relative_path, current := s.processed + 1,
                    total := total } :: E, R, ?_, ?_, h3, h4, ?_, ?_, ?_, ?_⟩
          · rw [h1, tick_events]
            simp
          · rw [h2, tick_processed]
            simp only [List.length_cons]
            omega
          · simp only [List.map_cons, List.length_cons]
            rw [List.range'_succ]
            rw [h5, tick_processed]
          · intro e he
            rcases List.mem_cons.mp he with he | he
            · subst he
              exact ⟨rfl, c.relative_path, rfl⟩
            · exact h6 e he
          · simp only [List.length_cons]
            omega
          · intro c' hc'
            obtain ⟨c₀, hc₀, hceq⟩ := h8 c' hc'
            exact ⟨c₀, List.mem_cons_of_mem _ hc₀, hceq⟩

/-- The adds pass only creates files at previously non-existent destinations:
every existing file's content is preserved and directories are untouched. -/
theorem runAdds_fs (tp : String) (total : Nat) (l : List FileChange) : ∀ (s : ExecState),
    (runPass (execAddStep tp total) l s).fs.dirs = s.fs.dirs ∧
    (∀ p v, s.fs.readFile p = some v →
      (runPass (execAddStep tp total) l s).fs.readFile p = some v) := by
  induction l with
  | nil => intro s; exact ⟨rfl, fun p v h => h⟩
  | cons c rest ih =>
    intro s
    rw [runPass_cons]
    by_cases hdest : s.fs.existsPath (changeDest tp c) = true
    · have hstep : execAddStep tp total s c =
          { s with updates := s.updates ++ [{ c with action := FileAction.update }] } := by
        simp [execAddStep, hdest]
      rw [hstep]
      exact ih _
    · cases hsp : c.source_path with
      | none =>
        have hstep : execAddStep tp total s c = s := by simp [execAddStep, hdest, hsp]
        rw [hstep]
        exact ih s
      | some sp =>
        cases hrd : s.fs.readFile sp with
        | none =>
          have hstep : execAddStep tp total s c = s := by simp [execAddStep, hdest, hsp, hrd]
          rw [hstep]
          exact ih s
        | some content =>
          have hstep : execAddStep tp total s c =
              tick total ("Copied " ++ c.relative_path)
                { s with fs := s.fs.writeFile (changeDest tp c) content } := by
            simp [execAddStep, hdest, hsp, hrd]
          rw [hstep]
          obtain ⟨ihd, ihf⟩ := ih (tick total ("Copied " ++ c.relative_path)
              { s with fs := s.fs.writeFile (changeDest tp c) content })
          constructor
          · rw [ihd, tick_fs]
            rfl
          · intro p v hp
            apply ihf
            rw [tick_fs]
            have hne : p ≠ changeDest tp c := by
              intro he
              rw [he] at hp
              rw [Fs.readFile_none_of_not_existsPath (by simpa using hdest)] at hp
              exact absurd hp (by simp)
            rw [Fs.readFile_writeFile_of_ne _ _ _ _ hne]
            exact hp

/-! ## Updates pass -/

theorem msgStarts_kept_removed (r : String) : msgStarts "Kept " ("Removed " ++ r) = false := rfl

theorem msgStarts_kept_self (r : String) : msgStarts "Kept " ("Kept " ++ r) = true :=
  msgStarts_self "Kept " r

/-- Shape of the updates pass (syncer.py lines 105-124): every item ticks
exactly once, with a `Skipped` message when the confirmation declines it (the
item then moves to `plan.skipped`) and an `Updated` message otherwise; when
every item is declined the filesystem is untouched. -/
theorem runUpdates_main (tp : String) (total : Nat) (acu : Bool)
    (cu : Option (FileChange → Bool)) (br : Option String) (now : String)
    (l : List FileChange) : ∀ (s : ExecState),
    ∃ E,
      (runPass (execUpdateStep tp total acu cu br now) l s).events = s.events ++ E ∧
      (runPass (execUpdateStep tp total acu cu br now) l s).processed = s.processed + E.length ∧
      (runPass (execUpdateStep tp total acu cu br now) l s).updates = s.updates ∧
      (runPass (execUpdateStep tp total acu cu br now) l s).skipped =
        s.skipped ++ l.filter (confirmationDeclined acu cu) ∧
      E.length = l.length ∧
      E.map ProgressEvent.current = List.range' (s.processed + 1) E.length ∧
      E.map ProgressEvent.message = l.map (fun c =>
        if confirmationDeclined acu cu c then "Skipped " ++ c.relative_path
        else "Updated " ++ c.relative_path) ∧
      (∀ e ∈ E, e.total = total) ∧
      ((∀ c ∈ l, confirmationDeclined acu cu c = true) →
        (runPass (execUpdateStep tp total acu cu br now) l s).fs = s.fs) := by
  induction l with
  | nil =>
    intro s
    exact ⟨[], by simp [runPass_nil], by simp [runPass_nil], by simp [runPass_nil],
      by simp [runPass_nil], rfl, by simp [List.range'_zero], by simp, by simp,
      fun _ => by simp [runPass_nil]⟩
  | cons c rest ih =>
    intro s
    rw [runPass_cons]
    by_cases hdec : confirmationDeclined acu cu c = true
    · have hstep : execUpdateStep tp total acu cu br now s c =
          tick total ("Skipped " ++ c.relative_path) { s with skipped := s.skipped ++ [c] } := by
        simp [execUpdateStep, hdec]
      rw [hstep]
      obtain ⟨E, h1, h2, h3, h4, h5, h6, h7, h8, h9⟩ :=
        ih (tick total ("Skipped " ++ c.relative_path) { s with skipped := s.skipped ++ [c] })
      have e1 : (tick total ("Skipped " ++ c.relative_path)
          { s with skipped := s.skipped ++ [c] }).events =
          s.events ++ [{ message := "Skipped " ++ c.relative_path,
                         current := s.processed + 1, total := total }] := rfl
      have e2 : (tick total ("Skipped " ++ c.relative_path)
          { s with skipped := s.skipped ++ [c] }).processed = s.processed + 1 := rfl
      have e4 : (tick total ("Skipped " ++ c.relative_path)
          { s with skipped := s.skipped ++ [c] }).skipped = s.skipped ++ [c] := rfl
      have e5 : (tick total ("Skipped " ++ c.relative_path)
          { s with skipped := s.skipped ++ [c] }).fs = s.fs := rfl
      refine ⟨{ message := "Skipped " ++ c.relative_path, current := s.processed + 1,
                total := total } :: E, ?_, ?_, h3, ?_, ?_, ?_, ?_, ?_, ?_⟩
      · rw [h1, e1]
        simp
      · rw [h2, e2]
        simp only [List.length_cons]
        omega
      · rw [h4, e4, List.filter_cons_of_pos hdec]
        simp
      · simp [h5]
      · simp only [List.map_cons, List.length_cons]
        rw [List.range'_succ, h6, e2]
      · simp only [List.map_cons]
        rw [h7, if_pos hdec]
      · intro e he
        rcases List.mem_cons.mp he with he | he
        · subst he
          rfl
        · exact h8 e he
      · intro hall
        have := h9 (fun c' hc' => hall c' (List.mem_cons_of_mem _ hc'))
        rw [this, e5]
    · have hstep : execUpdateStep tp total acu cu br now s c =
          tick total ("Updated " ++ c.relative_path)
            { s with fs := applyUpdateCopy tp br now s c } := by
        simp [execUpdateStep, hdec]
      rw [hstep]
      obtain ⟨E, h1, h2, h3, h4, h5, h6, h7, h8, h9⟩ :=
        ih (tick total ("Updated " ++ c.relative_path)
          { s with fs := applyUpdateCopy tp br now s c })
      have e1 : (tick total ("Updated " ++ c.relative_path)
          { s with fs := applyUpdateCopy tp br now s c }).events =
          s.events ++ [{ message := "Updated " ++ c.relative_path,
                         current := s.processed + 1, total := total }] := rfl
      have e2 : (tick total ("Updated " ++ c.relative_path)
          { s with fs := applyUpdateCopy tp br now s c }).processed = s.processed + 1 := rfl
      have e4 : (tick total ("Updated " ++ c.relative_path)
          { s with fs := applyUpdateCopy tp br now s c }).skipped = s.skipped := rfl
      have hdecf : confirmationDeclined acu cu c = false := by
        simpa using hdec
      refine ⟨{ message := "Updated " ++ c.relative_path, current := s.processed + 1,
                total := total } :: E, ?_, ?_, h3, ?_, ?_, ?_, ?_, ?_, ?_⟩
      · rw [h1, e1]
        simp
      · rw [h2, e2]
        simp only [List.length_cons]
        omega
      · rw [h4, e4, List.filter_cons_of_neg (by simp [hdecf])]
      · simp [h5]
      · simp only [List.map_cons, List.length_cons]
        rw [List.range'_succ, h6, e2]
      · simp only [List.map_cons]
        rw [h7, if_neg (by simp [hdecf])]
      · intro e he
        rcases List.mem_cons.mp he with he | he
        · subst he
          rfl
        · exact h8 e he
      · intro hall
        exact absurd (hall c (List.mem_cons_self _ _)) hdec

/-! ## Removals pass -/

/-- Shape of the removals pass (syncer.py lines 126-143): items whose
destination is gone are silently dropped; declined items tick with a `Kept`
message and move to `plan.skipped`; removed items tick with a `Removed`
message.  The number of `Kept` events equals the number of items moved to
`plan.skipped`. -/
theorem runRemovals_main (tp : String) (total : Nat) (acr : Bool)
    (cr : Option (FileChange → Bool)) (br : Option String) (now : String)
    (l : List FileChange) : ∀ (s : ExecState),
    ∃ E K,
      (runPass (execRemovalStep tp total acr cr br now) l s).events = s.events ++ E ∧
      (runPass (execRemovalStep tp total acr cr br now) l s).processed = s.processed + E.length ∧
      (runPass (execRemovalStep tp total acr cr br now) l s).updates = s.updates ∧
      (runPass (execRemovalStep tp total acr cr br now) l s).skipped = s.skipped ++ K ∧
      E.length ≤ l.length ∧
      E.map ProgressEvent.current = List.range' (s.processed + 1) E.length ∧
      (∀ e ∈ E, e.total = total ∧
        ((∃ r, e.message = "Kept " ++ r) ∨ (∃ r, e.message = "Removed " ++ r))) ∧
      E.countP (fun e => msgStarts "Kept " e.message) = K.length := by
  induction l with
  | nil =>
    intro s
    exact ⟨[], [], by simp [runPass_nil], by simp [runPass_nil], by simp [runPass_nil],
      by simp [runPass_nil], by simp, by simp [List.range'_zero], by simp, by simp⟩
  | cons c rest ih =>
    intro s
    rw [runPass_cons]
    by_cases hex : s.fs.existsPath (changeDest tp c) = true
    · by_cases hdec : confirmationDeclined acr cr c = true
      · have hstep : execRemovalStep tp total acr cr br now s c =
            tick total ("Kept " ++ c.relative_path) { s with skipped := s.skipped ++ [c] } := by
          simp [execRemovalStep, hex, hdec]
        rw [hstep]
        obtain ⟨E, K, h1, h2, h3, h4, h5, h6, h7, h8⟩ :=
          ih (tick total ("Kept " ++ c.relative_path) { s with skipped := s.skipped ++ [c] })
        have e1 : (tick total ("Kept " ++ c.relative_path)
            { s with skipped := s.skipped ++ [c] }).events =
            s.events ++ [{ message := "Kept " ++ c.relative_path,
                           current := s.processed + 1, total := total }] := rfl
        have e2 : (tick total ("Kept " ++ c.relative_path)
            { s with skipped := s.skipped ++ [c] }).processed = s.processed + 1 := rfl
        have e4 : (tick total ("Kept " ++ c.relative_path)
            { s with skipped := s.skipped ++ [c] }).skipped = s.skipped ++ [c] := rfl
        refine ⟨{ message := "Kept " ++ c.relative_path, current := s.processed + 1,
                  total := total } :: E, c :: K, ?_, ?_, h3, ?_, ?_, ?_, ?_, ?_⟩
        · rw [h1, e1]
          simp
        · rw [h2, e2]
          simp only [List.length_cons]
          omega
        · rw [h4, e4]
          simp
        · simp only [List.length_cons]
          omega
        · simp only [List.map_cons, List.length_cons]
          rw [List.range'_succ, h6, e2]
        · intro e he
          rcases List.mem_cons.mp he with he | he
          · subst he
            exact ⟨rfl, Or.inl ⟨c.relative_path, rfl⟩⟩
          · exact h7 e he
        · rw [List.countP_cons_of_pos _ _ (by simpa using msgStarts_kept_self c.relative_path)]
          simp [h8]
      · have hstep : execRemovalStep tp total acr cr br now s c =
            tick total ("Removed " ++ c.relative_path)
              { s with fs := applyRemovalDelete tp br now s c } := by
          simp [execRemovalStep, hex, hdec]
        rw [hstep]
        obtain ⟨E, K, h1, h2, h3, h4, h5, h6, h7, h8⟩ :=
          ih (tick total ("Removed " ++ c.relative_path)
            { s with fs := applyRemovalDelete tp br now s c })
        have e1 : (tick total ("Removed " ++ c.relative_path)
            { s with fs := applyRemovalDelete tp br now s c }).events =
            s.events ++ [{ message := "Removed " ++ c.relative_path,
                           current := s.processed + 1, total := total }] := rfl
        have e2 : (tick total ("Removed " ++ c.relative_path)
            { s with fs := applyRemovalDelete tp br now s c }).processed = s.processed + 1 := rfl
        have e4 : (tick total ("Removed " ++ c.relative_path)
            { s with fs := applyRemovalDelete tp br now s c }).skipped = s.skipped := rfl
        refine ⟨{ message := "Removed " ++ c.relative_path, current := s.processed + 1,
                  total := total } :: E, K, ?_, ?_, h3, ?_, ?_, ?_, ?_, ?_⟩
        · rw [h1, e1]
          simp
        · rw [h2, e2]
          simp only [List.length_cons]
          omega
        · rw [h4, e4]
        · simp only [List.length_cons]
          omega
        · simp only [List.map_cons, List.length_cons]
          rw [List.range'_succ, h6, e2]
        · intro e he
          rcases List.mem_cons.mp he with he | he
          · subst he
            exact ⟨rfl, Or.inr ⟨c.relative_path, rfl⟩⟩
          · exact h7 e he
        · rw [List.countP_cons_of_neg _ _ (by simp [msgStarts_kept_removed])]
          exact h8
    · have hstep : execRemovalStep tp total acr cr br now s c = s := by
        simp [execRemovalStep, hex]
      rw [hstep]
      obtain ⟨E, K, h1, h2, h3, h4, h5, h6, h7, h8⟩ := ih s
      exact ⟨E, K, h1, h2, h3, h4, by simp only [List.length_cons]; omega, h6, h7, h8⟩

/-- When auto-confirm for removals is off and the callback always declines,
the removals pass deletes nothing and moves exactly the removals whose
destination exists into `plan.skipped`. -/
theorem runRemovals_declined (tp : String) (total : Nat) (acr : Bool)
    (cr : Option (FileChange → Bool)) (br : Option String) (now : String)
    (hacr : acr = false) (hcr : ∀ c, callbackAllows cr c = false)
    (l : List FileChange) : ∀ (s : ExecState),
    (runPass (execRemovalStep tp total acr cr br now) l s).fs = s.fs ∧
    (runPass (execRemovalStep tp total acr cr br now) l s).skipped =
      s.skipped ++ l.filter (fun c => s.fs.existsPath (changeDest tp c)) := by
  induction l with
  | nil => intro s; exact ⟨rfl, by simp [runPass_nil]⟩
  | cons c rest ih =>
    intro s
    rw [runPass_cons]
    have hdec : confirmationDeclined acr cr c = true := by
      simp [confirmationDeclined, hacr, hcr]
    by_cases hex : s.fs.existsPath (changeDest tp c) = true
    · have hstep : execRemovalStep tp total acr cr br now s c =
          tick total ("Kept " ++ c.relative_path) { s with skipped := s.skipped ++ [c] } := by
        simp [execRemovalStep, hex, hdec]
      rw [hstep]
      obtain ⟨ihfs, ihsk⟩ :=
        ih (tick total ("Kept " ++ c.relative_path) { s with skipped := s.skipped ++ [c] })
      have e4 : (tick total ("Kept " ++ c.relative_path)
          { s with skipped := s.skipped ++ [c] }).skipped = s.skipped ++ [c] := rfl
      have e5 : (tick total ("Kept " ++ c.relative_path)
          { s with skipped := s.skipped ++ [c] }).fs = s.fs := rfl
      refine ⟨by rw [ihfs, e5], ?_⟩
      rw [ihsk, e4]
      simp only [e5]
      have hfeq : List.filter (fun c => s.fs.existsPath (changeDest tp c)) (c :: rest)
          = c :: List.filter (fun c => s.fs.existsPath (changeDest tp c)) rest :=
        List.filter_cons_of_pos hex
      rw [hfeq]
      simp
    · have hstep : execRemovalStep tp total acr cr br now s c = s := by
        simp [execRemovalStep, hex]
      rw [hstep]
      obtain ⟨ihfs, ihsk⟩ := ih s
      refine ⟨ihfs, ?_⟩
      rw [ihsk, List.filter_cons_of_neg (by simpa using hex)]

/-! ## Executor assembly lemmas -/

theorem prune_files (f : Fs) (b : String) : (prune_empty_dirs f b).files = f.files := by
  rw [prune_empty_dirs]
  split <;> rfl

theorem readFile_prune (f : Fs) (b p : String) :
    (prune_empty_dirs f b).readFile p = f.readFile p := by
  show alookup (prune_empty_dirs f b).files p = alookup f.files p
  rw [prune_files]

theorem Fs.readFile_writeFile_self (fs : Fs) (q v : String) :
    (fs.writeFile q v).readFile q = some v :=
  alookup_assocSet_self fs.files q v

theorem Fs.existsPath_writeFile_of_ne (fs : Fs) (p q v : String) (h : p ≠ q) :
    (fs.writeFile q v).existsPath p = fs.existsPath p := by
  rw [Fs.existsPath, Fs.existsPath, Fs.readFile_writeFile_of_ne _ _ _ _ h]
  rfl

theorem runAdds_existsPath (tp : String) (total : Nat) (l : List FileChange)
    (s : ExecState) (p : String) (h : s.fs.existsPath p = true) :
    (runPass (execAddStep tp total) l s).fs.existsPath p = true := by
  obtain ⟨hd, hf⟩ := runAdds_fs tp total l s
  rw [Fs.existsPath] at h ⊢
  rcases Bool.or_eq_true_iff.mp h with h1 | h1
  · obtain ⟨v, hv⟩ := Option.isSome_iff_exists.mp h1
    rw [hf p v hv]
    simp
  · rw [hd, h1]
    simp

theorem execute_plan_ok (cfg : AppConfig) (store : StoreState) (fs : Fs) (name : String)
    (plan : SyncPlan) (payload : List (String × HistInfo)) (acuA acrA : Option Bool)
    (cb : Bool) (cu cr : Option (FileChange → Bool)) (now : String)
    (hex : fs.existsPath cfg.game_path = true) :
    execute_plan cfg store fs name plan payload acuA acrA cb cu cr now =
      Except.ok (executeCore cfg store fs name plan payload acuA acrA cb cu cr now) := by
  rw [execute_plan, if_neg (by simp [hex])]

theorem executeCore_def (cfg : AppConfig) (store : StoreState) (fs : Fs) (name : String)
    (plan : SyncPlan) (payload : List (String × HistInfo)) (acuA acrA : Option Bool)
    (cb : Bool) (cu cr : Option (FileChange → Bool)) (now : String) :
    executeCore cfg store fs name plan payload acuA acrA cb cu cr now =
      { fs := prune_empty_dirs
          (execS3 cfg.game_path (plan.adds.length + plan.updates.length + plan.removals.length)
            (acuA.getD cfg.auto_confirm_updates) cu (acrA.getD cfg.auto_confirm_removals) cr
            (if cb then cfg.backup_dir else none) now fs plan).fs cfg.game_path
        plan := { adds := plan.adds
                  updates := (execS1 cfg.game_path
                    (plan.adds.length + plan.updates.length + plan.removals.length) fs plan).updates
                  removals := plan.removals
                  skipped := (execS3 cfg.game_path
                    (plan.adds.length + plan.updates.length + plan.removals.length)
                    (acuA.getD cfg.auto_confirm_updates) cu (acrA.getD cfg.auto_confirm_removals) cr
                    (if cb then cfg.backup_dir else none) now fs plan).skipped }
        store := update_file_snapshot store name payload now
        events := (execS3 cfg.game_path
          (plan.adds.length + plan.updates.length + plan.removals.length)
          (acuA.getD cfg.auto_confirm_updates) cu (acrA.getD cfg.auto_confirm_removals) cr
          (if cb then cfg.backup_dir else none) now fs plan).events } := rfl

theorem execS1_def (tp : String) (total : Nat) (fs : Fs) (plan : SyncPlan) :
    execS1 tp total fs plan = runPass (execAddStep tp total) plan.adds (execS0 fs plan) := rfl

theorem execS2_def (tp : String) (total : Nat) (acu : Bool) (cu : Option (FileChange → Bool))
    (br : Option String) (now : String) (fs : Fs) (plan : SyncPlan) :
    execS2 tp total acu cu br now fs plan =
      runPass (execUpdateStep tp total acu cu br now) (execS1 tp total fs plan).updates
        (execS1 tp total fs plan) := rfl

theorem execS3_def (tp : String) (total : Nat) (acu : Bool) (cu : Option (FileChange → Bool))
    (acr : Bool) (cr : Option (FileChange → Bool)) (br : Option String) (now : String)
    (fs : Fs) (plan : SyncPlan) :
    execS3 tp total acu cu acr cr br now fs plan =
      runPass (execRemovalStep tp total acr cr br now) plan.removals
        (execS2 tp total acu cu br now fs plan) := rfl

/-- Lemma: `update_file_snapshot` unfolded through its pair destructuring. -/
theorem update_file_snapshot_eq (s : StoreState) (name : String)
    (payload : List (String × HistInfo)) (now : String) :
    update_file_snapshot s name payload now =
      save_history (get_history s name).2
        { (get_history s name).1 with files := payload, last_synced := some now } := rfl

/-- Fetching right after a save returns exactly the saved history. -/
theorem get_save_history (s : StoreState) (h : SyncHistory) :
    (get_history (save_history s h) h.modpack_name).1 = h := by
  have hcache : (save_history s h).cache = assocSet s.cache h.modpack_name h := rfl
  have hne : ((save_history s h).cache).isEmpty = false := by
    rw [hcache]; exact isEmpty_assocSet _ _ _
  have hload : load_all (save_history s h) = ((save_history s h).cache, save_history s h) := by
    rw [load_all, hne]
    simp
  have hlook : alookup (save_history s h).cache h.modpack_name = some h := by
    rw [hcache]; exact alookup_assocSet_self _ _ _
  rw [get_history, hload]
  simp [hlook]

/-- Lemma: `get_history` unfolded through its pair destructuring. -/
theorem get_history_eq (s : StoreState) (name : String) :
    get_history s name =
      match alookup (load_all s).1 name with
      | some h => (h, (load_all s).2)
      | none =>
        ({ modpack_name := name },
         { (load_all s).2 with
             cache := assocSet (load_all s).2.cache name { modpack_name := name } }) := rfl

theorem load_all_fst (s : StoreState) :
    (load_all s).1 = if s.cache.isEmpty then
      s.disk.map (fun kv =>
        (kv.1, { modpack_name := kv.1, files := kv.2.files, exclusions := kv.2.exclusions,
                 last_synced := kv.2.last_synced : SyncHistory }))
    else s.cache := by
  rw [load_all]
  split <;> rfl

/-- Under the store invariant (cache entries keyed by their own modpack
name), `get_history` returns a history named after the requested key. -/
theorem get_history_name (s : StoreState) (name : String)
    (hwf : ∀ kv ∈ s.cache, kv.2.modpack_name = kv.1) :
    ((get_history s name).1).modpack_name = name := by
  rw [get_history_eq]
  cases hl : alookup (load_all s).1 name with
  | none => rfl
  | some h0 =>
    show h0.modpack_name = name
    have hmem := mem_of_alookup_eq_some hl
    rw [load_all_fst] at hmem
    cases hc : s.cache.isEmpty with
    | true =>
      rw [hc, if_pos rfl] at hmem
      obtain ⟨kv, _, hkv⟩ := List.mem_map.mp hmem
      have h1 : kv.1 = name := congrArg Prod.fst hkv
      have h2 : ({ modpack_name := kv.1, files := kv.2.files, exclusions := kv.2.exclusions,
                   last_synced := kv.2.last_synced : SyncHistory }) = h0 := congrArg Prod.snd hkv
      rw [← h2, ← h1]
    | false =>
      rw [hc, if_neg (by simp)] at hmem
      exact hwf (name, h0) hmem

/-- Claim C9: if the target path does not exist, `execute_plan` fails with the
configuration error before performing any filesystem or history-store effect
(the returned value carries no updated state at all). -/
theorem claim_c9_missing_target_fatal (cfg : AppConfig) (store : StoreState) (fs : Fs)
    (name : String) (plan : SyncPlan) (payload : List (String × HistInfo))
    (acuA acrA : Option Bool) (cb : Bool) (cu cr : Option (FileChange → Bool)) (now : String)
    (hex : fs.existsPath cfg.game_path = false) :
    execute_plan cfg store fs name plan payload acuA acrA cb cu cr now =
      Except.error ("Target game path does not exist: " ++ cfg.game_path) := by
  rw [execute_plan, if_pos (by simp [hex])]

/-- Witness for C9 at a concrete input. -/
theorem claim_c9_missing_target_fatal_witness :
    (Fs.existsPath { files := [], dirs := [] } "tgt" = false) ∧
    execute_plan { instances_path := "src", game_path := "tgt" } { disk := [], cache := [] }
        { files := [], dirs := [] } "m" { adds := [], updates := [], removals := [], skipped := [] }
        [] none none false none none "T" =
      Except.error ("Target game path does not exist: " ++ "tgt") :=
  ⟨rfl, claim_c9_missing_target_fatal _ _ _ _ _ _ _ _ _ _ _ _ rfl⟩

theorem get_save_history_named (s : StoreState) (h : SyncHistory) (n : String)
    (hn : h.modpack_name = n) : (get_history (save_history s h) n).1 = h := by
  rw [← hn]
  exact get_save_history s h

/-- After `update_file_snapshot`, fetching the history yields exactly the new
snapshot payload and the refreshed timestamp. -/
theorem get_update_files (s : StoreState) (name : String)
    (payload : List (String × HistInfo)) (now : String)
    (hwf : ∀ kv ∈ s.cache, kv.2.modpack_name = kv.1) :
    (get_history (update_file_snapshot s name payload now) name).1.files = payload ∧
    (get_history (update_file_snapshot s name payload now) name).1.last_synced = some now := by
  rw [update_file_snapshot_eq]
  have hn : ({ (get_history s name).1 with
      files := payload, last_synced := some now } : SyncHistory).modpack_name = name :=
    get_history_name s name hwf
  rw [get_save_history_named _ _ _ hn]
  exact ⟨rfl, rfl⟩

/-- Claim C2: executing any plan with auto-confirm for updates and removals
disabled and confirmation callbacks that always refuse leaves every file that
was present in the filesystem with its exact content, moves every update and
every removal whose destination exists into the plan's skipped list, and still
persists the new snapshot payload (with a refreshed timestamp) into the
history store. -/
theorem claim_c2_decline_leaves_target_unchanged
    (cfg : AppConfig) (store : StoreState) (fs : Fs) (name : String) (plan : SyncPlan)
    (payload : List (String × HistInfo)) (cb : Bool)
    (cuF crF : FileChange → Bool) (now : String) (res : ExecResult)
    (hwf : ∀ kv ∈ store.cache, kv.2.modpack_name = kv.1)
    (hcu : ∀ c, cuF c = false) (hcr : ∀ c, crF c = false)
    (hex : fs.existsPath cfg.game_path = true)
    (h : execute_plan cfg store fs name plan payload (some false) (some false) cb
        (some cuF) (some crF) now = Except.ok res) :
    (∀ p v, fs.readFile p = some v → res.fs.readFile p = some v) ∧
    (∀ c ∈ plan.updates, c ∈ res.plan.skipped) ∧
    (∀ c ∈ plan.removals, fs.existsPath (changeDest cfg.game_path c) = true →
      c ∈ res.plan.skipped) ∧
    (get_history res.store name).1.files = payload ∧
    (get_history res.store name).1.last_synced = some now := by
  rw [execute_plan_ok cfg store fs name plan payload (some false) (some false) cb
    (some cuF) (some crF) now hex] at h
  injection h with h
  have hres : res = executeCore cfg store fs name plan payload (some false) (some false) cb
      (some cuF) (some crF) now := h.symm
  subst hres
  rw [executeCore_def]
  simp only [Option.getD_some]
  rw [execS3_def, execS2_def, execS1_def]
  obtain ⟨EA, R, a1, a2, a3, a4, a5, a6, a7, a8⟩ :=
    runAdds_main cfg.game_path (plan.adds.length + plan.updates.length + plan.removals.length)
      plan.adds (execS0 fs plan)
  obtain ⟨EU, u1, u2, u3, u4, u5, u6, u7, u8, u9⟩ :=
    runUpdates_main cfg.game_path (plan.adds.length + plan.updates.length + plan.removals.length)
      false (some cuF) (if cb then cfg.backup_dir else none) now
      (runPass (execAddStep cfg.game_path
        (plan.adds.length + plan.updates.length + plan.removals.length))
        plan.adds (execS0 fs plan)).updates
      (runPass (execAddStep cfg.game_path
        (plan.adds.length + plan.updates.length + plan.removals.length))
        plan.adds (execS0 fs plan))
  have hdecl_all : ∀ c ∈ (runPass (execAddStep cfg.game_path
      (plan.adds.length + plan.updates.length + plan.removals.length))
      plan.adds (execS0 fs plan)).updates,
      confirmationDeclined false (some cuF) c = true := by
    intro c _
    simp [confirmationDeclined, callbackAllows, hcu]
  have u9f := u9 hdecl_all
  obtain ⟨hRfs, hRsk⟩ :=
    runRemovals_declined cfg.game_path
      (plan.adds.length + plan.updates.length + plan.removals.length)
      false (some crF) (if cb then cfg.backup_dir else none) now rfl (fun c => hcr c)
      plan.removals
      (runPass (execUpdateStep cfg.game_path
        (plan.adds.length + plan.updates.length + plan.removals.length)
        false (some cuF) (if cb then cfg.backup_dir else none) now)
        (runPass (execAddStep cfg.game_path
          (plan.adds.length + plan.updates.length + plan.removals.length))
          plan.adds (execS0 fs plan)).updates
        (runPass (execAddStep cfg.game_path
          (plan.adds.length + plan.updates.length + plan.removals.length))
          plan.adds (execS0 fs plan)))
  refine ⟨?_, ?_, ?_, ?_, ?_⟩
  · intro p v hp
    rw [readFile_prune, hRfs, u9f]
    exact (runAdds_fs cfg.game_path
      (plan.adds.length + plan.updates.length + plan.removals.length)
      plan.adds (execS0 fs plan)).2 p v hp
  · intro c hc
    rw [hRsk]
    apply List.mem_append_left
    rw [u4]
    apply List.mem_append_right
    apply List.mem_filter.mpr
    refine ⟨?_, by simp [confirmationDeclined, callbackAllows, hcu]⟩
    rw [a3]
    exact List.mem_append_left R hc
  · intro c hc hcex
    rw [hRsk]
    apply List.mem_append_right
    apply List.mem_filter.mpr
    refine ⟨hc, ?_⟩
    rw [u9f]
    exact runAdds_existsPath cfg.game_path
      (plan.adds.length + plan.updates.length + plan.removals.length)
      plan.adds (execS0 fs plan) (changeDest cfg.game_path c) hcex
  · exact (get_update_files store name payload now hwf).1
  · exact (get_update_files store name payload now hwf).2

/-! ## Progress-event counting helpers -/

theorem msgStarts_skipped_copied (r : String) :
    msgStarts "Skipped " ("Copied " ++ r) = false := rfl

theorem msgStarts_kept_copied (r : String) :
    msgStarts "Kept " ("Copied " ++ r) = false := rfl

theorem msgStarts_skipped_self (r : String) :
    msgStarts "Skipped " ("Skipped " ++ r) = true := msgStarts_self "Skipped " r

theorem msgStarts_skipped_updated (r : String) :
    msgStarts "Skipped " ("Updated " ++ r) = false := rfl

theorem msgStarts_kept_updated (r : String) :
    msgStarts "Kept " ("Updated " ++ r) = false := rfl

theorem msgStarts_skipped_kept (r : String) :
    msgStarts "Skipped " ("Kept " ++ r) = false := rfl

theorem msgStarts_skipped_removed (r : String) :
    msgStarts "Skipped " ("Removed " ++ r) = false := rfl

theorem msgStarts_updated_copied (r : String) :
    msgStarts "Updated " ("Copied " ++ r) = false := rfl

theorem msgStarts_updated_self (r : String) :
    msgStarts "Updated " ("Updated " ++ r) = true := msgStarts_self "Updated " r

theorem msgStarts_updated_skipped (r : String) :
    msgStarts "Updated " ("Skipped " ++ r) = false := rfl

theorem msgStarts_updated_kept (r : String) :
    msgStarts "Updated " ("Kept " ++ r) = false := rfl

theorem msgStarts_updated_removed (r : String) :
    msgStarts "Updated " ("Removed " ++ r) = false := rfl

theorem range_split (s a b : Nat) :
    List.range' s (a + b) = List.range' s a ++ List.range' (s + a) b := by
  induction a generalizing s with
  | zero => simp
  | succ a ih =>
    rw [show a + 1 + b = (a + b) + 1 from by omega, List.range'_succ, ih (s + 1),
      List.range'_succ, show s + 1 + a = s + (a + 1) from by omega]
    rfl

theorem range_concat (a b c : Nat) :
    (List.range' 1 a ++ List.range' (a + 1) b) ++ List.range' (a + b + 1) c =
      List.range' 1 (a + b + c) := by
  rw [range_split 1 (a + b) c, range_split 1 a b,
    show 1 + a = a + 1 from by omega, show 1 + (a + b) = a + b + 1 from by omega]

/-- Claim C6: during execution, every progress event carries the total counted
at execution start (adds + updates + removals, build-time skipped excluded)
and a non-empty message; the reported `current` values go up by exactly one
per tick starting at 1; the number of ticks never exceeds the total; and the
number of items moved into `plan.skipped` (declined updates and removals)
equals the number of `Skipped`/`Kept` progress events, so every
interactively-declined item ticks exactly once. -/
theorem claim_c6_progress_accounting
    (cfg : AppConfig) (store : StoreState) (fs : Fs) (name : String) (plan : SyncPlan)
    (payload : List (String × HistInfo)) (acuA acrA : Option Bool) (cb : Bool)
    (cu cr : Option (FileChange → Bool)) (now : String) (res : ExecResult)
    (hex : fs.existsPath cfg.game_path = true)
    (h : execute_plan cfg store fs name plan payload acuA acrA cb cu cr now =
      Except.ok res) :
    (∀ e ∈ res.events,
       e.total = plan.adds.length + plan.updates.length + plan.removals.length ∧
       e.message ≠ "") ∧
    res.events.map ProgressEvent.current = List.range' 1 res.events.length ∧
    res.events.length ≤ plan.adds.length + plan.updates.length + plan.removals.length ∧
    res.plan.skipped.length = plan.skipped.length +
      res.events.countP
        (fun e => msgStarts "Skipped " e.message || msgStarts "Kept " e.message) := by
  rw [execute_plan_ok cfg store fs name plan payload acuA acrA cb cu cr now hex] at h
  injection h with h
  have hres : res = executeCore cfg store fs name plan payload acuA acrA cb cu cr now := h.symm
  subst hres
  rw [executeCore_def]
  dsimp only
  rw [execS3_def, execS2_def, execS1_def]
  obtain ⟨EA, R, a1, a2, a3, a4, a5, a6, a7, a8⟩ :=
    runAdds_main cfg.game_path (plan.adds.length + plan.updates.length + plan.removals.length) plan.adds (execS0 fs plan)
  have h0ev : (execS0 fs plan).events = [] := rfl
  have h0pr : (execS0 fs plan).processed = 0 := rfl
  have h0up : (execS0 fs plan).updates = plan.updates := rfl
  have h0sk : (execS0 fs plan).skipped = plan.skipped := rfl
  rw [h0ev] at a1
  simp only [List.nil_append] at a1
  rw [h0pr] at a2 a5
  simp only [Nat.zero_add] at a2 a5
  rw [h0up] at a3
  rw [h0sk] at a4
  obtain ⟨EU, u1, u2, u3, u4, u5, u6, u7, u8, u9⟩ :=
    runUpdates_main cfg.game_path (plan.adds.length + plan.updates.length + plan.removals.length) (acuA.getD cfg.auto_confirm_updates) cu (if cb then cfg.backup_dir else none) now
      (runPass (execAddStep cfg.game_path (plan.adds.length + plan.updates.length + plan.removals.length)) plan.adds (execS0 fs plan)).updates (runPass (execAddStep cfg.game_path (plan.adds.length + plan.updates.length + plan.removals.length)) plan.adds (execS0 fs plan))
  obtain ⟨ER, K, r1, r2, r3, r4, r5, r6, r7, r8⟩ :=
    runRemovals_main cfg.game_path (plan.adds.length + plan.updates.length + plan.removals.length) (acrA.getD cfg.auto_confirm_removals) cr (if cb then cfg.backup_dir else none) now
      plan.removals (runPass (execUpdateStep cfg.game_path (plan.adds.length + plan.updates.length + plan.removals.length) (acuA.getD cfg.auto_confirm_updates) cu (if cb then cfg.backup_dir else none) now) (runPass (execAddStep cfg.game_path (plan.adds.length + plan.updates.length + plan.removals.length)) plan.adds (execS0 fs plan)).updates (runPass (execAddStep cfg.game_path (plan.adds.length + plan.updates.length + plan.removals.length)) plan.adds (execS0 fs plan)))
  rw [a2] at u2 u6
  rw [u2] at r2 r6
  refine ⟨?_, ?_, ?_, ?_⟩
  · intro e he
    rw [r1, u1, a1] at he
    rcases List.mem_append.mp he with he1 | he1
    · rcases List.mem_append.mp he1 with he2 | he2
      · obtain ⟨ht, r, hm⟩ := a6 e he2
        refine ⟨ht, ?_⟩
        rw [hm]
        exact append_ne_empty_left _ _ (by decide)
      · refine ⟨u8 e he2, ?_⟩
        have hmem : e.message ∈ EU.map ProgressEvent.message := List.mem_map_of_mem _ he2
        rw [u7] at hmem
        obtain ⟨c, _, hc⟩ := List.mem_map.mp hmem
        by_cases hd : confirmationDeclined (acuA.getD cfg.auto_confirm_updates) cu c = true
        · rw [if_pos hd] at hc
          rw [← hc]
          exact append_ne_empty_left _ _ (by decide)
        · rw [if_neg hd] at hc
          rw [← hc]
          exact append_ne_empty_left _ _ (by decide)
    · obtain ⟨ht, hm⟩ := r7 e he1
      refine ⟨ht, ?_⟩
      rcases hm with ⟨r, hm⟩ | ⟨r, hm⟩
      · rw [hm]
        exact append_ne_empty_left _ _ (by decide)
      · rw [hm]
        exact append_ne_empty_left _ _ (by decide)
  · rw [r1, u1, a1, List.map_append, List.map_append, a5, u6, r6,
      List.length_append, List.length_append]
    exact range_concat EA.length EU.length ER.length
  · have hB : EU.length = plan.updates.length + R.length := by
      rw [u5, a3, List.length_append]
    rw [r1, u1, a1, List.length_append, List.length_append]
    omega
  · rw [r4, u4, a4, r1, u1, a1, List.countP_append, List.countP_append]
    have hA0 : EA.countP
        (fun e => msgStarts "Skipped " e.message || msgStarts "Kept " e.message) = 0 := by
      apply List.countP_eq_zero.mpr
      intro e he
      obtain ⟨_, r, hm⟩ := a6 e he
      simp [hm, msgStarts_skipped_copied, msgStarts_kept_copied]
    have hU : EU.countP
        (fun e => msgStarts "Skipped " e.message || msgStarts "Kept " e.message) =
        ((runPass (execAddStep cfg.game_path (plan.adds.length + plan.updates.length + plan.removals.length)) plan.adds (execS0 fs plan)).updates.filter (confirmationDeclined (acuA.getD cfg.auto_confirm_updates) cu)).length := by
      have h1 : EU.countP
          (fun e => msgStarts "Skipped " e.message || msgStarts "Kept " e.message) =
          (EU.map ProgressEvent.message).countP
            (fun m => msgStarts "Skipped " m || msgStarts "Kept " m) := by
        rw [List.countP_map]
        rfl
      rw [h1, u7, List.countP_map]
      have h2 : ∀ c ∈ (runPass (execAddStep cfg.game_path (plan.adds.length + plan.updates.length + plan.removals.length)) plan.adds (execS0 fs plan)).updates,
          (((fun m => msgStarts "Skipped " m || msgStarts "Kept " m) ∘
            (fun c => if confirmationDeclined (acuA.getD cfg.auto_confirm_updates) cu c then "Skipped " ++ c.relative_path
              else "Updated " ++ c.relative_path)) c) = true ↔
          confirmationDeclined (acuA.getD cfg.auto_confirm_updates) cu c = true := by
        intro c _
        by_cases hd : confirmationDeclined (acuA.getD cfg.auto_confirm_updates) cu c = true
        · simp [Function.comp, hd, msgStarts_skipped_self]
        · simp [Function.comp, hd, msgStarts_skipped_updated, msgStarts_kept_updated]
      rw [List.countP_congr h2]
      exact List.countP_eq_length_filter _ _
    have hR : ER.countP
        (fun e => msgStarts "Skipped " e.message || msgStarts "Kept " e.message) = K.length := by
      rw [← r8]
      apply List.countP_congr
      intro e he
      obtain ⟨_, hm⟩ := r7 e he
      rcases hm with ⟨r, hm⟩ | ⟨r, hm⟩
      · simp [hm, msgStarts_kept_self, msgStarts_skipped_kept]
      · simp [hm, msgStarts_kept_removed, msgStarts_skipped_removed]
    simp only [List.length_append]
    rw [hA0, hU, hR]
    omega

/-- Claim C7: during execution, an add whose destination already exists is
reclassified as an update appended to `plan.updates`; because the update pass
iterates over the snapshot of `plan.updates` taken after the adds pass, every
element of the final updates list — the original updates plus all reclassified
adds — is processed by the update pass in the same run, ticking exactly one
`Skipped`/`Updated` progress event each. -/
theorem claim_c7_reclassified_adds_processed
    (cfg : AppConfig) (store : StoreState) (fs : Fs) (name : String) (plan : SyncPlan)
    (payload : List (String × HistInfo)) (acuA acrA : Option Bool) (cb : Bool)
    (cu cr : Option (FileChange → Bool)) (now : String) (res : ExecResult)
    (hex : fs.existsPath cfg.game_path = true)
    (h : execute_plan cfg store fs name plan payload acuA acrA cb cu cr now =
      Except.ok res) :
    ∃ reclass,
      res.plan.updates = plan.updates ++ reclass ∧
      (∀ c ∈ reclass, ∃ c₀, c₀ ∈ plan.adds ∧ c = { c₀ with action := FileAction.update }) ∧
      res.events.countP
        (fun e => msgStarts "Skipped " e.message || msgStarts "Updated " e.message) =
        res.plan.updates.length := by
  rw [execute_plan_ok cfg store fs name plan payload acuA acrA cb cu cr now hex] at h
  injection h with h
  have hres : res = executeCore cfg store fs name plan payload acuA acrA cb cu cr now := h.symm
  subst hres
  rw [executeCore_def]
  dsimp only
  rw [execS3_def, execS2_def, execS1_def]
  obtain ⟨EA, R, a1, a2, a3, a4, a5, a6, a7, a8⟩ :=
    runAdds_main cfg.game_path (plan.adds.length + plan.updates.length + plan.removals.length) plan.adds (execS0 fs plan)
  have h0ev : (execS0 fs plan).events = [] := rfl
  have h0up : (execS0 fs plan).updates = plan.updates := rfl
  rw [h0ev] at a1
  simp only [List.nil_append] at a1
  rw [h0up] at a3
  obtain ⟨EU, u1, u2, u3, u4, u5, u6, u7, u8, u9⟩ :=
    runUpdates_main cfg.game_path (plan.adds.length + plan.updates.length + plan.removals.length) (acuA.getD cfg.auto_confirm_updates) cu (if cb then cfg.backup_dir else none) now
      (runPass (execAddStep cfg.game_path (plan.adds.length + plan.updates.length + plan.removals.length)) plan.adds (execS0 fs plan)).updates (runPass (execAddStep cfg.game_path (plan.adds.length + plan.updates.length + plan.removals.length)) plan.adds (execS0 fs plan))
  obtain ⟨ER, K, r1, r2, r3, r4, r5, r6, r7, r8⟩ :=
    runRemovals_main cfg.game_path (plan.adds.length + plan.updates.length + plan.removals.length) (acrA.getD cfg.auto_confirm_removals) cr (if cb then cfg.backup_dir else none) now
      plan.removals (runPass (execUpdateStep cfg.game_path (plan.adds.length + plan.updates.length + plan.removals.length) (acuA.getD cfg.auto_confirm_updates) cu (if cb then cfg.backup_dir else none) now) (runPass (execAddStep cfg.game_path (plan.adds.length + plan.updates.length + plan.removals.length)) plan.adds (execS0 fs plan)).updates (runPass (execAddStep cfg.game_path (plan.adds.length + plan.updates.length + plan.removals.length)) plan.adds (execS0 fs plan)))
  refine ⟨R, a3, a8, ?_⟩
  rw [r1, u1, a1, List.countP_append, List.countP_append]
  have hA0 : EA.countP
      (fun e => msgStarts "Skipped " e.message || msgStarts "Updated " e.message) = 0 := by
    apply List.countP_eq_zero.mpr
    intro e he
    obtain ⟨_, r, hm⟩ := a6 e he
    simp [hm, msgStarts_skipped_copied, msgStarts_updated_copied]
  have hU : EU.countP
      (fun e => msgStarts "Skipped " e.message || msgStarts "Updated " e.message) =
      EU.length := by
    apply List.countP_eq_length.mpr
    intro e he
    have hmem : e.message ∈ EU.map ProgressEvent.message := List.mem_map_of_mem _ he
    rw [u7] at hmem
    obtain ⟨c, _, hc⟩ := List.mem_map.mp hmem
    by_cases hd : confirmationDeclined (acuA.getD cfg.auto_confirm_updates) cu c = true
    · rw [if_pos hd] at hc
      simp [← hc, msgStarts_skipped_self]
    · rw [if_neg hd] at hc
      simp [← hc, msgStarts_updated_self]
  have hR0 : ER.countP
      (fun e => msgStarts "Skipped " e.message || msgStarts "Updated " e.message) = 0 := by
    apply List.countP_eq_zero.mpr
    intro e he
    obtain ⟨_, hm⟩ := r7 e he
    rcases hm with ⟨r, hm⟩ | ⟨r, hm⟩
    · simp [hm, msgStarts_skipped_kept, msgStarts_updated_kept]
    · simp [hm, msgStarts_skipped_removed, msgStarts_updated_removed]
  rw [hA0, hU, hR0, u5]
  omega

/-- When every add's destination is initially absent, destinations are
pairwise distinct, and every add's source file exists at a path that is not
any add's destination, the adds pass copies every add unconditionally. -/
theorem runAdds_copies (tp : String) (total : Nat) (l : List FileChange) :
    ∀ (s : ExecState),
    (∀ c ∈ l, s.fs.existsPath (changeDest tp c) = false) →
    ((l.map (changeDest tp)).Nodup) →
    (∀ c ∈ l, ∃ sp, c.source_path = some sp ∧ (s.fs.readFile sp).isSome ∧
      ∀ c' ∈ l, changeDest tp c' ≠ sp) →
    (runPass (execAddStep tp total) l s).updates = s.updates ∧
    (∀ c ∈ l, ∀ sp v, c.source_path = some sp → s.fs.readFile sp = some v →
      (runPass (execAddStep tp total) l s).fs.readFile (changeDest tp c) = some v) := by
  induction l with
  | nil =>
    intro s _ _ _
    exact ⟨rfl, by simp⟩
  | cons c rest ih =>
    intro s hdest hnd hsp
    rw [runPass_cons]
    obtain ⟨sp, hspc, hsome, hspne⟩ := hsp c (List.mem_cons_self _ _)
    obtain ⟨content, hcontent⟩ := Option.isSome_iff_exists.mp hsome
    have hdc : s.fs.existsPath (changeDest tp c) = false := hdest c (List.mem_cons_self _ _)
    have hstep : execAddStep tp total s c =
        tick total ("Copied " ++ c.relative_path)
          { s with fs := s.fs.writeFile (changeDest tp c) content } := by
      simp [execAddStep, hdc, hspc, hcontent]
    rw [hstep]
    have hfs1 : (tick total ("Copied " ++ c.relative_path)
        { s with fs := s.fs.writeFile (changeDest tp c) content }).fs =
        s.fs.writeFile (changeDest tp c) content := rfl
    simp only [List.map_cons] at hnd
    obtain ⟨hndc, hndr⟩ := List.nodup_cons.mp hnd
    have harg1 : ∀ c' ∈ rest,
        (tick total ("Copied " ++ c.relative_path)
          { s with fs := s.fs.writeFile (changeDest tp c) content }).fs.existsPath
          (changeDest tp c') = false := by
      intro c' hc'
      have hne : changeDest tp c' ≠ changeDest tp c := by
        intro he
        apply hndc
        rw [← he]
        exact List.mem_map_of_mem _ hc'
      rw [hfs1, Fs.existsPath_writeFile_of_ne _ _ _ _ hne]
      exact hdest c' (List.mem_cons_of_mem _ hc')
    have harg3 : ∀ c' ∈ rest, ∃ sp', c'.source_path = some sp' ∧
        ((tick total ("Copied " ++ c.relative_path)
          { s with fs := s.fs.writeFile (changeDest tp c) content }).fs.readFile sp').isSome ∧
        ∀ c'' ∈ rest, changeDest tp c'' ≠ sp' := by
      intro c' hc'
      obtain ⟨sp', h1, h2, h3⟩ := hsp c' (List.mem_cons_of_mem _ hc')
      refine ⟨sp', h1, ?_, fun c'' hc'' => h3 c'' (List.mem_cons_of_mem _ hc'')⟩
      rw [hfs1, Fs.readFile_writeFile_of_ne _ _ _ _
        (Ne.symm (h3 c (List.mem_cons_self _ _)))]
      exact h2
    obtain ⟨ihup, ihcp⟩ := ih (tick total ("Copied " ++ c.relative_path)
        { s with fs := s.fs.writeFile (changeDest tp c) content }) harg1 hndr harg3
    constructor
    · rw [ihup]
      rfl
    · intro c' hc' sp' v h1 h2
      rcases List.mem_cons.mp hc' with hceq | hc'
      · subst hceq
        have hsp' : sp = sp' := by
          injection hspc.symm.trans h1
        have hv : content = v := by
          rw [← hsp'] at h2
          injection hcontent.symm.trans h2
        apply (runAdds_fs tp total rest _).2
        rw [hfs1, Fs.readFile_writeFile_self, hv]
      · obtain ⟨sp'', h1'', h2'', h3''⟩ := hsp c' (List.mem_cons_of_mem _ hc')
        have hspeq : sp'' = sp' := by
          injection h1''.symm.trans h1
        apply ihcp c' hc' sp' v h1
        rw [hfs1, Fs.readFile_writeFile_of_ne _ _ _ _
          (Ne.symm (hspeq ▸ h3'' c (List.mem_cons_self _ _)))]
        exact h2

/-- Claim C10: additions are never confirmation-gated: the
`auto_confirm_new_files` flag and the confirmation callbacks have no effect on
a run consisting only of adds, and every add whose destination is absent and
whose source exists is copied to its destination. -/
theorem claim_c10_adds_never_gated
    (cfg : AppConfig) (store : StoreState) (fs : Fs) (name : String) (plan : SyncPlan)
    (payload : List (String × HistInfo)) (acuA acrA : Option Bool) (cb : Bool)
    (now : String) (b₁ b₂ : Bool) (cu₁ cu₂ cr₁ cr₂ : Option (FileChange → Bool))
    (hex : fs.existsPath cfg.game_path = true)
    (hupd : plan.updates = []) (hrem : plan.removals = [])
    (hdest : ∀ c ∈ plan.adds, fs.existsPath (changeDest cfg.game_path c) = false)
    (hnd : (plan.adds.map (changeDest cfg.game_path)).Nodup)
    (hsp : ∀ c ∈ plan.adds, ∃ sp, c.source_path = some sp ∧ (fs.readFile sp).isSome ∧
      ∀ c' ∈ plan.adds, changeDest cfg.game_path c' ≠ sp) :
    execute_plan { cfg with auto_confirm_new_files := b₁ } store fs name plan payload
        acuA acrA cb cu₁ cr₁ now =
      execute_plan { cfg with auto_confirm_new_files := b₂ } store fs name plan payload
        acuA acrA cb cu₂ cr₂ now ∧
    ∀ res, execute_plan { cfg with auto_confirm_new_files := b₁ } store fs name plan payload
        acuA acrA cb cu₁ cr₁ now = Except.ok res →
      ∀ c ∈ plan.adds, ∀ sp v, c.source_path = some sp → fs.readFile sp = some v →
        res.fs.readFile (changeDest cfg.game_path c) = some v := by
  obtain ⟨hcup, hccp⟩ := runAdds_copies cfg.game_path (plan.adds.length + plan.updates.length + plan.removals.length)
    plan.adds (execS0 fs plan) hdest hnd hsp
  have hS1up : (runPass (execAddStep cfg.game_path (plan.adds.length + plan.updates.length + plan.removals.length))
      plan.adds (execS0 fs plan)).updates = [] := by
    rw [hcup]
    exact hupd
  have hcore : ∀ (cu cr : Option (FileChange → Bool)) (b : Bool),
      executeCore { cfg with auto_confirm_new_files := b } store fs name plan payload
        acuA acrA cb cu cr now =
      { fs := prune_empty_dirs (runPass (execAddStep cfg.game_path (plan.adds.length + plan.updates.length + plan.removals.length))
          plan.adds (execS0 fs plan)).fs cfg.game_path
        plan := { adds := plan.adds
                  updates := []
                  removals := plan.removals
                  skipped := (runPass (execAddStep cfg.game_path (plan.adds.length + plan.updates.length + plan.removals.length))
                    plan.adds (execS0 fs plan)).skipped }
        store := update_file_snapshot store name payload now
        events := (runPass (execAddStep cfg.game_path (plan.adds.length + plan.updates.length + plan.removals.length))
          plan.adds (execS0 fs plan)).events } := by
    intro cu cr b
    simp only [executeCore_def]
    simp only [execS3_def, execS2_def, execS1_def]
    rw [hS1up, hrem]
    simp only [runPass_nil]
  constructor
  · rw [execute_plan_ok { cfg with auto_confirm_new_files := b₁ } store fs name plan payload
        acuA acrA cb cu₁ cr₁ now hex,
      execute_plan_ok { cfg with auto_confirm_new_files := b₂ } store fs name plan payload
        acuA acrA cb cu₂ cr₂ now hex,
      hcore cu₁ cr₁ b₁, hcore cu₂ cr₂ b₂]
  · intro res hres c hc sp v h1 h2
    rw [execute_plan_ok { cfg with auto_confirm_new_files := b₁ } store fs name plan payload
        acuA acrA cb cu₁ cr₁ now hex] at hres
    injection hres with hres
    have hres2 : res = executeCore { cfg with auto_confirm_new_files := b₁ } store fs name
        plan payload acuA acrA cb cu₁ cr₁ now := hres.symm
    subst hres2
    rw [hcore cu₁ cr₁ b₁]
    dsimp only
    rw [readFile_prune]
    exact hccp c hc sp v h1 h2

/-! ## Witnesses at concrete inputs -/

/-- Witness for C1. -/
theorem claim_c1_drift_update_never_removal_witness :
    ((({ modpack_name := "m", files := [("p", ({ hash := some "D", size := none, mtime := none } : HistInfo))], exclusions := [], last_synced := none } : SyncHistory).files.map Prod.fst).Nodup) ∧
    alookup ({ modpack_name := "m", files := [("p", ({ hash := some "D", size := none, mtime := none } : HistInfo))], exclusions := [], last_synced := none } : SyncHistory).files "p" = some ({ hash := some "D", size := none, mtime := none } : HistInfo) ∧
    ({ hash := some "D", size := none, mtime := none } : HistInfo).hash = some "D" ∧
    ("D" : String) ≠ "" ∧
    alookup ([] : List (String × SnapshotEntry)) "p" = none ∧
    alookup [("p", ({ relative_path := "p", absolute_path := "tgt/p", size := 1, mtime := 0, hash_digest := "E" } : SnapshotEntry))] "p" = some ({ relative_path := "p", absolute_path := "tgt/p", size := 1, mtime := 0, hash_digest := "E" } : SnapshotEntry) ∧
    ({ relative_path := "p", absolute_path := "tgt/p", size := 1, mtime := 0, hash_digest := "E" } : SnapshotEntry).hash_digest ≠ "D" ∧
    ((∃ c ∈ (build_sync_plan ({ modpack_name := "m", files := [("p", ({ hash := some "D", size := none, mtime := none } : HistInfo))], exclusions := [], last_synced := none } : SyncHistory) [] [("p", ({ relative_path := "p", absolute_path := "tgt/p", size := 1, mtime := 0, hash_digest := "E" } : SnapshotEntry))] "tgt" (fun _ => true)).1.updates,
        c.relative_path = "p" ∧ c.reason = some "Target file changed since last sync") ∧
     (∀ c ∈ (build_sync_plan ({ modpack_name := "m", files := [("p", ({ hash := some "D", size := none, mtime := none } : HistInfo))], exclusions := [], last_synced := none } : SyncHistory) [] [("p", ({ relative_path := "p", absolute_path := "tgt/p", size := 1, mtime := 0, hash_digest := "E" } : SnapshotEntry))] "tgt" (fun _ => true)).1.removals,
        c.relative_path ≠ "p")) :=
  ⟨by decide, rfl, rfl, by decide, rfl, rfl, by decide,
   claim_c1_drift_update_never_removal ({ modpack_name := "m", files := [("p", ({ hash := some "D", size := none, mtime := none } : HistInfo))], exclusions := [], last_synced := none } : SyncHistory) [] [("p", ({ relative_path := "p", absolute_path := "tgt/p", size := 1, mtime := 0, hash_digest := "E" } : SnapshotEntry))] "tgt" (fun _ => true)
     "p" "D" ({ hash := some "D", size := none, mtime := none } : HistInfo) ({ relative_path := "p", absolute_path := "tgt/p", size := 1, mtime := 0, hash_digest := "E" } : SnapshotEntry) (by decide) rfl rfl (by decide) rfl rfl (by decide)⟩

/-- Witness for C2. -/
theorem claim_c2_decline_leaves_target_unchanged_witness :
    (∀ kv ∈ ({ disk := [], cache := [] } : StoreState).cache, kv.2.modpack_name = kv.1) ∧
    (∀ c : FileChange, (fun _ : FileChange => false) c = false) ∧
    Fs.existsPath ({ files := [("src/u.txt", "U2"), ("src/n.txt", "N"), ("tgt/u.txt", "U1"), ("tgt/r.txt", "R")], dirs := ["tgt"] } : Fs) "tgt" = true ∧
    execute_plan ({ instances_path := "src", game_path := "tgt", backup_dir := none, auto_confirm_new_files := true, auto_confirm_updates := false, auto_confirm_removals := false } : AppConfig) ({ disk := [], cache := [] } : StoreState) ({ files := [("src/u.txt", "U2"), ("src/n.txt", "N"), ("tgt/u.txt", "U1"), ("tgt/r.txt", "R")], dirs := ["tgt"] } : Fs) "m" ({ adds := [], updates := [({ relative_path := "u.txt", action := FileAction.update, source_path := some "src/u.txt", target_path := some "tgt/u.txt", size_bytes := none, hash_digest := none, reason := none } : FileChange)], removals := [({ relative_path := "r.txt", action := FileAction.delete, source_path := none, target_path := some "tgt/r.txt", size_bytes := none, hash_digest := none, reason := none } : FileChange)], skipped := [] } : SyncPlan) [("u.txt", ({ hash := some "hu", size := none, mtime := none } : HistInfo))]
      (some false) (some false) false (some (fun _ => false)) (some (fun _ => false)) "T" =
      Except.ok ({
    fs := ({ files := [("src/u.txt", "U2"), ("src/n.txt", "N"), ("tgt/u.txt", "U1"), ("tgt/r.txt", "R")], dirs := ["tgt"] } : Fs),
    plan := { adds := [], updates := [({ relative_path := "u.txt", action := FileAction.update, source_path := some "src/u.txt", target_path := some "tgt/u.txt", size_bytes := none, hash_digest := none, reason := none } : FileChange)], removals := [({ relative_path := "r.txt", action := FileAction.delete, source_path := none, target_path := some "tgt/r.txt", size_bytes := none, hash_digest := none, reason := none } : FileChange)], skipped := [({ relative_path := "u.txt", action := FileAction.update, source_path := some "src/u.txt", target_path := some "tgt/u.txt", size_bytes := none, hash_digest := none, reason := none } : FileChange), ({ relative_path := "r.txt", action := FileAction.delete, source_path := none, target_path := some "tgt/r.txt", size_bytes := none, hash_digest := none, reason := none } : FileChange)] },
    store := ({ disk := [("m", { files := [("u.txt", { hash := some "hu", size := none, mtime := none })], exclusions := [], last_synced := some "T" })], cache := [("m", { modpack_name := "m", files := [("u.txt", { hash := some "hu", size := none, mtime := none })], exclusions := [], last_synced := some "T" })] } : StoreState),
    events := [{ message := "Skipped u.txt", current := 1, total := 2 },
               { message := "Kept r.txt", current := 2, total := 2 }] } : ExecResult) ∧
    ((∀ p v, Fs.readFile ({ files := [("src/u.txt", "U2"), ("src/n.txt", "N"), ("tgt/u.txt", "U1"), ("tgt/r.txt", "R")], dirs := ["tgt"] } : Fs) p = some v → Fs.readFile ({
    fs := ({ files := [("src/u.txt", "U2"), ("src/n.txt", "N"), ("tgt/u.txt", "U1"), ("tgt/r.txt", "R")], dirs := ["tgt"] } : Fs),
    plan := { adds := [], updates := [({ relative_path := "u.txt", action := FileAction.update, source_path := some "src/u.txt", target_path := some "tgt/u.txt", size_bytes := none, hash_digest := none, reason := none } : FileChange)], removals := [({ relative_path := "r.txt", action := FileAction.delete, source_path := none, target_path := some "tgt/r.txt", size_bytes := none, hash_digest := none, reason := none } : FileChange)], skipped := [({ relative_path := "u.txt", action := FileAction.update, source_path := some "src/u.txt", target_path := some "tgt/u.txt", size_bytes := none, hash_digest := none, reason := none } : FileChange), ({ relative_path := "r.txt", action := FileAction.delete, source_path := none, target_path := some "tgt/r.txt", size_bytes := none, hash_digest := none, reason := none } : FileChange)] },
    store := ({ disk := [("m", { files := [("u.txt", { hash := some "hu", size := none, mtime := none })], exclusions := [], last_synced := some "T" })], cache := [("m", { modpack_name := "m", files := [("u.txt", { hash := some "hu", size := none, mtime := none })], exclusions := [], last_synced := some "T" })] } : StoreState),
    events := [{ message := "Skipped u.txt", current := 1, total := 2 },
               { message := "Kept r.txt", current := 2, total := 2 }] } : ExecResult).fs p = some v) ∧
     (∀ c ∈ ({ adds := [], updates := [({ relative_path := "u.txt", action := FileAction.update, source_path := some "src/u.txt", target_path := some "tgt/u.txt", size_bytes := none, hash_digest := none, reason := none } : FileChange)], removals := [({ relative_path := "r.txt", action := FileAction.delete, source_path := none, target_path := some "tgt/r.txt", size_bytes := none, hash_digest := none, reason := none } : FileChange)], skipped := [] } : SyncPlan).updates, c ∈ ({
    fs := ({ files := [("src/u.txt", "U2"), ("src/n.txt", "N"), ("tgt/u.txt", "U1"), ("tgt/r.txt", "R")], dirs := ["tgt"] } : Fs),
    plan := { adds := [], updates := [({ relative_path := "u.txt", action := FileAction.update, source_path := some "src/u.txt", target_path := some "tgt/u.txt", size_bytes := none, hash_digest := none, reason := none } : FileChange)], removals := [({ relative_path := "r.txt", action := FileAction.delete, source_path := none, target_path := some "tgt/r.txt", size_bytes := none, hash_digest := none, reason := none } : FileChange)], skipped := [({ relative_path := "u.txt", action := FileAction.update, source_path := some "src/u.txt", target_path := some "tgt/u.txt", size_bytes := none, hash_digest := none, reason := none } : FileChange), ({ relative_path := "r.txt", action := FileAction.delete, source_path := none, target_path := some "tgt/r.txt", size_bytes := none, hash_digest := none, reason := none } : FileChange)] },
    store := ({ disk := [("m", { files := [("u.txt", { hash := some "hu", size := none, mtime := none })], exclusions := [], last_synced := some "T" })], cache := [("m", { modpack_name := "m", files := [("u.txt", { hash := some "hu", size := none, mtime := none })], exclusions := [], last_synced := some "T" })] } : StoreState),
    events := [{ message := "Skipped u.txt", current := 1, total := 2 },
               { message := "Kept r.txt", current := 2, total := 2 }] } : ExecResult).plan.skipped) ∧
     (∀ c ∈ ({ adds := [], updates := [({ relative_path := "u.txt", action := FileAction.update, source_path := some "src/u.txt", target_path := some "tgt/u.txt", size_bytes := none, hash_digest := none, reason := none } : FileChange)], removals := [({ relative_path := "r.txt", action := FileAction.delete, source_path := none, target_path := some "tgt/r.txt", size_bytes := none, hash_digest := none, reason := none } : FileChange)], skipped := [] } : SyncPlan).removals, Fs.existsPath ({ files := [("src/u.txt", "U2"), ("src/n.txt", "N"), ("tgt/u.txt", "U1"), ("tgt/r.txt", "R")], dirs := ["tgt"] } : Fs) (changeDest "tgt" c) = true →
        c ∈ ({
    fs := ({ files := [("src/u.txt", "U2"), ("src/n.txt", "N"), ("tgt/u.txt", "U1"), ("tgt/r.txt", "R")], dirs := ["tgt"] } : Fs),
    plan := { adds := [], updates := [({ relative_path := "u.txt", action := FileAction.update, source_path := some "src/u.txt", target_path := some "tgt/u.txt", size_bytes := none, hash_digest := none, reason := none } : FileChange)], removals := [({ relative_path := "r.txt", action := FileAction.delete, source_path := none, target_path := some "tgt/r.txt", size_bytes := none, hash_digest := none, reason := none } : FileChange)], skipped := [({ relative_path := "u.txt", action := FileAction.update, source_path := some "src/u.txt", target_path := some "tgt/u.txt", size_bytes := none, hash_digest := none, reason := none } : FileChange), ({ relative_path := "r.txt", action := FileAction.delete, source_path := none, target_path := some "tgt/r.txt", size_bytes := none, hash_digest := none, reason := none } : FileChange)] },
    store := ({ disk := [("m", { files := [("u.txt", { hash := some "hu", size := none, mtime := none })], exclusions := [], last_synced := some "T" })], cache := [("m", { modpack_name := "m", files := [("u.txt", { hash := some "hu", size := none, mtime := none })], exclusions := [], last_synced := some "T" })] } : StoreState),
    events := [{ message := "Skipped u.txt", current := 1, total := 2 },
               { message := "Kept r.txt", current := 2, total := 2 }] } : ExecResult).plan.skipped) ∧
     (get_history ({
    fs := ({ files := [("src/u.txt", "U2"), ("src/n.txt", "N"), ("tgt/u.txt", "U1"), ("tgt/r.txt", "R")], dirs := ["tgt"] } : Fs),
    plan := { adds := [], updates := [({ relative_path := "u.txt", action := FileAction.update, source_path := some "src/u.txt", target_path := some "tgt/u.txt", size_bytes := none, hash_digest := none, reason := none } : FileChange)], removals := [({ relative_path := "r.txt", action := FileAction.delete, source_path := none, target_path := some "tgt/r.txt", size_bytes := none, hash_digest := none, reason := none } : FileChange)], skipped := [({ relative_path := "u.txt", action := FileAction.update, source_path := some "src/u.txt", target_path := some "tgt/u.txt", size_bytes := none, hash_digest := none, reason := none } : FileChange), ({ relative_path := "r.txt", action := FileAction.delete, source_path := none, target_path := some "tgt/r.txt", size_bytes := none, hash_digest := none, reason := none } : FileChange)] },
    store := ({ disk := [("m", { files := [("u.txt", { hash := some "hu", size := none, mtime := none })], exclusions := [], last_synced := some "T" })], cache := [("m", { modpack_name := "m", files := [("u.txt", { hash := some "hu", size := none, mtime := none })], exclusions := [], last_synced := some "T" })] } : StoreState),
    events := [{ message := "Skipped u.txt", current := 1, total := 2 },
               { message := "Kept r.txt", current := 2, total := 2 }] } : ExecResult).store "m").1.files = [("u.txt", ({ hash := some "hu", size := none, mtime := none } : HistInfo))] ∧
     (get_history ({
    fs := ({ files := [("src/u.txt", "U2"), ("src/n.txt", "N"), ("tgt/u.txt", "U1"), ("tgt/r.txt", "R")], dirs := ["tgt"] } : Fs),
    plan := { adds := [], updates := [({ relative_path := "u.txt", action := FileAction.update, source_path := some "src/u.txt", target_path := some "tgt/u.txt", size_bytes := none, hash_digest := none, reason := none } : FileChange)], removals := [({ relative_path := "r.txt", action := FileAction.delete, source_path := none, target_path := some "tgt/r.txt", size_bytes := none, hash_digest := none, reason := none } : FileChange)], skipped := [({ relative_path := "u.txt", action := FileAction.update, source_path := some "src/u.txt", target_path := some "tgt/u.txt", size_bytes := none, hash_digest := none, reason := none } : FileChange), ({ relative_path := "r.txt", action := FileAction.delete, source_path := none, target_path := some "tgt/r.txt", size_bytes := none, hash_digest := none, reason := none } : FileChange)] },
    store := ({ disk := [("m", { files := [("u.txt", { hash := some "hu", size := none, mtime := none })], exclusions := [], last_synced := some "T" })], cache := [("m", { modpack_name := "m", files := [("u.txt", { hash := some "hu", size := none, mtime := none })], exclusions := [], last_synced := some "T" })] } : StoreState),
    events := [{ message := "Skipped u.txt", current := 1, total := 2 },
               { message := "Kept r.txt", current := 2, total := 2 }] } : ExecResult).store "m").1.last_synced = some "T") :=
  ⟨by simp, fun _ => rfl, rfl, rfl,
   claim_c2_decline_leaves_target_unchanged ({ instances_path := "src", game_path := "tgt", backup_dir := none, auto_confirm_new_files := true, auto_confirm_updates := false, auto_confirm_removals := false } : AppConfig) ({ disk := [], cache := [] } : StoreState) ({ files := [("src/u.txt", "U2"), ("src/n.txt", "N"), ("tgt/u.txt", "U1"), ("tgt/r.txt", "R")], dirs := ["tgt"] } : Fs) "m" ({ adds := [], updates := [({ relative_path := "u.txt", action := FileAction.update, source_path := some "src/u.txt", target_path := some "tgt/u.txt", size_bytes := none, hash_digest := none, reason := none } : FileChange)], removals := [({ relative_path := "r.txt", action := FileAction.delete, source_path := none, target_path := some "tgt/r.txt", size_bytes := none, hash_digest := none, reason := none } : FileChange)], skipped := [] } : SyncPlan)
     [("u.txt", ({ hash := some "hu", size := none, mtime := none } : HistInfo))] false (fun _ => false) (fun _ => false) "T" ({
    fs := ({ files := [("src/u.txt", "U2"), ("src/n.txt", "N"), ("tgt/u.txt", "U1"), ("tgt/r.txt", "R")], dirs := ["tgt"] } : Fs),
    plan := { adds := [], updates := [({ relative_path := "u.txt", action := FileAction.update, source_path := some "src/u.txt", target_path := some "tgt/u.txt", size_bytes := none, hash_digest := none, reason := none } : FileChange)], removals := [({ relative_path := "r.txt", action := FileAction.delete, source_path := none, target_path := some "tgt/r.txt", size_bytes := none, hash_digest := none, reason := none } : FileChange)], skipped := [({ relative_path := "u.txt", action := FileAction.update, source_path := some "src/u.txt", target_path := some "tgt/u.txt", size_bytes := none, hash_digest := none, reason := none } : FileChange), ({ relative_path := "r.txt", action := FileAction.delete, source_path := none, target_path := some "tgt/r.txt", size_bytes := none, hash_digest := none, reason := none } : FileChange)] },
    store := ({ disk := [("m", { files := [("u.txt", { hash := some "hu", size := none, mtime := none })], exclusions := [], last_synced := some "T" })], cache := [("m", { modpack_name := "m", files := [("u.txt", { hash := some "hu", size := none, mtime := none })], exclusions := [], last_synced := some "T" })] } : StoreState),
    events := [{ message := "Skipped u.txt", current := 1, total := 2 },
               { message := "Kept r.txt", current := 2, total := 2 }] } : ExecResult)
     (by simp) (fun _ => rfl) (fun _ => rfl) rfl rfl⟩

/-- Witness for C3. -/
theorem claim_c3_identical_digests_skipped_witness :
    (([("a", ({ relative_path := "a", absolute_path := "src/a", size := 1, mtime := 0, hash_digest := "H" } : SnapshotEntry))].map Prod.fst).Nodup) ∧
    alookup [("a", ({ relative_path := "a", absolute_path := "src/a", size := 1, mtime := 0, hash_digest := "H" } : SnapshotEntry))] "a" = some ({ relative_path := "a", absolute_path := "src/a", size := 1, mtime := 0, hash_digest := "H" } : SnapshotEntry) ∧
    alookup [("a", ({ relative_path := "a", absolute_path := "tgt/a", size := 2, mtime := 0, hash_digest := "H" } : SnapshotEntry))] "a" = some ({ relative_path := "a", absolute_path := "tgt/a", size := 2, mtime := 0, hash_digest := "H" } : SnapshotEntry) ∧
    ({ relative_path := "a", absolute_path := "src/a", size := 1, mtime := 0, hash_digest := "H" } : SnapshotEntry).hash_digest = ({ relative_path := "a", absolute_path := "tgt/a", size := 2, mtime := 0, hash_digest := "H" } : SnapshotEntry).hash_digest ∧
    ((∃ c ∈ (build_sync_plan ({ modpack_name := "m", files := [], exclusions := [], last_synced := none } : SyncHistory) [("a", ({ relative_path := "a", absolute_path := "src/a", size := 1, mtime := 0, hash_digest := "H" } : SnapshotEntry))] [("a", ({ relative_path := "a", absolute_path := "tgt/a", size := 2, mtime := 0, hash_digest := "H" } : SnapshotEntry))] "tgt" (fun _ => false)).1.skipped,
        c.relative_path = "a" ∧ c.action = FileAction.skip) ∧
     (∀ c ∈ (build_sync_plan ({ modpack_name := "m", files := [], exclusions := [], last_synced := none } : SyncHistory) [("a", ({ relative_path := "a", absolute_path := "src/a", size := 1, mtime := 0, hash_digest := "H" } : SnapshotEntry))] [("a", ({ relative_path := "a", absolute_path := "tgt/a", size := 2, mtime := 0, hash_digest := "H" } : SnapshotEntry))] "tgt" (fun _ => false)).1.adds,
        c.relative_path ≠ "a") ∧
     (∀ c ∈ (build_sync_plan ({ modpack_name := "m", files := [], exclusions := [], last_synced := none } : SyncHistory) [("a", ({ relative_path := "a", absolute_path := "src/a", size := 1, mtime := 0, hash_digest := "H" } : SnapshotEntry))] [("a", ({ relative_path := "a", absolute_path := "tgt/a", size := 2, mtime := 0, hash_digest := "H" } : SnapshotEntry))] "tgt" (fun _ => false)).1.updates,
        c.relative_path ≠ "a")) :=
  ⟨by decide, rfl, rfl, rfl,
   claim_c3_identical_digests_skipped ({ modpack_name := "m", files := [], exclusions := [], last_synced := none } : SyncHistory) [("a", ({ relative_path := "a", absolute_path := "src/a", size := 1, mtime := 0, hash_digest := "H" } : SnapshotEntry))] [("a", ({ relative_path := "a", absolute_path := "tgt/a", size := 2, mtime := 0, hash_digest := "H" } : SnapshotEntry))] "tgt"
     (fun _ => false) "a" ({ relative_path := "a", absolute_path := "src/a", size := 1, mtime := 0, hash_digest := "H" } : SnapshotEntry) ({ relative_path := "a", absolute_path := "tgt/a", size := 2, mtime := 0, hash_digest := "H" } : SnapshotEntry) (by decide) rfl rfl rfl⟩

/-- Witness for C4. -/
theorem claim_c4_removal_or_nothing_witness :
    ((({ modpack_name := "m", files := [("p", ({ hash := some "D", size := none, mtime := none } : HistInfo))], exclusions := [], last_synced := none } : SyncHistory).files.map Prod.fst).Nodup) ∧
    alookup ({ modpack_name := "m", files := [("p", ({ hash := some "D", size := none, mtime := none } : HistInfo))], exclusions := [], last_synced := none } : SyncHistory).files "p" = some ({ hash := some "D", size := none, mtime := none } : HistInfo) ∧
    alookup ([] : List (String × SnapshotEntry)) "p" = none ∧
    (alookup [("p", ({ relative_path := "p", absolute_path := "tgt/p", size := 1, mtime := 0, hash_digest := "D" } : SnapshotEntry))] "p" = none ∨
      ∃ te, alookup [("p", ({ relative_path := "p", absolute_path := "tgt/p", size := 1, mtime := 0, hash_digest := "D" } : SnapshotEntry))] "p" = some te ∧ ({ hash := some "D", size := none, mtime := none } : HistInfo).hash = some te.hash_digest) ∧
    (((fun _ => true : String → Bool) (joinPath "tgt" "p") = true →
       ∃ c ∈ (build_sync_plan ({ modpack_name := "m", files := [("p", ({ hash := some "D", size := none, mtime := none } : HistInfo))], exclusions := [], last_synced := none } : SyncHistory) [] [("p", ({ relative_path := "p", absolute_path := "tgt/p", size := 1, mtime := 0, hash_digest := "D" } : SnapshotEntry))] "tgt" (fun _ => true)).1.removals,
         c.relative_path = "p" ∧ c.action = FileAction.delete) ∧
     ((fun _ => true : String → Bool) (joinPath "tgt" "p") = false →
       ∀ c ∈ (build_sync_plan ({ modpack_name := "m", files := [("p", ({ hash := some "D", size := none, mtime := none } : HistInfo))], exclusions := [], last_synced := none } : SyncHistory) [] [("p", ({ relative_path := "p", absolute_path := "tgt/p", size := 1, mtime := 0, hash_digest := "D" } : SnapshotEntry))] "tgt" (fun _ => true)).1.adds ++
             (build_sync_plan ({ modpack_name := "m", files := [("p", ({ hash := some "D", size := none, mtime := none } : HistInfo))], exclusions := [], last_synced := none } : SyncHistory) [] [("p", ({ relative_path := "p", absolute_path := "tgt/p", size := 1, mtime := 0, hash_digest := "D" } : SnapshotEntry))] "tgt" (fun _ => true)).1.updates ++
             (build_sync_plan ({ modpack_name := "m", files := [("p", ({ hash := some "D", size := none, mtime := none } : HistInfo))], exclusions := [], last_synced := none } : SyncHistory) [] [("p", ({ relative_path := "p", absolute_path := "tgt/p", size := 1, mtime := 0, hash_digest := "D" } : SnapshotEntry))] "tgt" (fun _ => true)).1.removals ++
             (build_sync_plan ({ modpack_name := "m", files := [("p", ({ hash := some "D", size := none, mtime := none } : HistInfo))], exclusions := [], last_synced := none } : SyncHistory) [] [("p", ({ relative_path := "p", absolute_path := "tgt/p", size := 1, mtime := 0, hash_digest := "D" } : SnapshotEntry))] "tgt" (fun _ => true)).1.skipped,
         c.relative_path ≠ "p")) :=
  ⟨by decide, rfl, rfl, Or.inr ⟨({ relative_path := "p", absolute_path := "tgt/p", size := 1, mtime := 0, hash_digest := "D" } : SnapshotEntry), rfl, rfl⟩,
   claim_c4_removal_or_nothing ({ modpack_name := "m", files := [("p", ({ hash := some "D", size := none, mtime := none } : HistInfo))], exclusions := [], last_synced := none } : SyncHistory) [] [("p", ({ relative_path := "p", absolute_path := "tgt/p", size := 1, mtime := 0, hash_digest := "D" } : SnapshotEntry))] "tgt" (fun _ => true) "p" ({ hash := some "D", size := none, mtime := none } : HistInfo)
     (by decide) rfl rfl (Or.inr ⟨({ relative_path := "p", absolute_path := "tgt/p", size := 1, mtime := 0, hash_digest := "D" } : SnapshotEntry), rfl, rfl⟩)⟩

/-- Witness for C5. -/
theorem claim_c5_at_most_one_action_list_witness :
    ((({ modpack_name := "m", files := [("p", ({ hash := some "D", size := none, mtime := none } : HistInfo))], exclusions := [], last_synced := none } : SyncHistory).files.map Prod.fst).Nodup) ∧
    (¬((∃ c ∈ (build_sync_plan ({ modpack_name := "m", files := [("p", ({ hash := some "D", size := none, mtime := none } : HistInfo))], exclusions := [], last_synced := none } : SyncHistory) [("a", ({ relative_path := "a", absolute_path := "src/a", size := 1, mtime := 0, hash_digest := "H" } : SnapshotEntry))] [] "tgt" (fun _ => true)).1.adds,
          c.relative_path = "a") ∧
       (∃ c ∈ (build_sync_plan ({ modpack_name := "m", files := [("p", ({ hash := some "D", size := none, mtime := none } : HistInfo))], exclusions := [], last_synced := none } : SyncHistory) [("a", ({ relative_path := "a", absolute_path := "src/a", size := 1, mtime := 0, hash_digest := "H" } : SnapshotEntry))] [] "tgt" (fun _ => true)).1.updates,
          c.relative_path = "a")) ∧
     ¬((∃ c ∈ (build_sync_plan ({ modpack_name := "m", files := [("p", ({ hash := some "D", size := none, mtime := none } : HistInfo))], exclusions := [], last_synced := none } : SyncHistory) [("a", ({ relative_path := "a", absolute_path := "src/a", size := 1, mtime := 0, hash_digest := "H" } : SnapshotEntry))] [] "tgt" (fun _ => true)).1.adds,
          c.relative_path = "a") ∧
       (∃ c ∈ (build_sync_plan ({ modpack_name := "m", files := [("p", ({ hash := some "D", size := none, mtime := none } : HistInfo))], exclusions := [], last_synced := none } : SyncHistory) [("a", ({ relative_path := "a", absolute_path := "src/a", size := 1, mtime := 0, hash_digest := "H" } : SnapshotEntry))] [] "tgt" (fun _ => true)).1.removals,
          c.relative_path = "a")) ∧
     ¬((∃ c ∈ (build_sync_plan ({ modpack_name := "m", files := [("p", ({ hash := some "D", size := none, mtime := none } : HistInfo))], exclusions := [], last_synced := none } : SyncHistory) [("a", ({ relative_path := "a", absolute_path := "src/a", size := 1, mtime := 0, hash_digest := "H" } : SnapshotEntry))] [] "tgt" (fun _ => true)).1.updates,
          c.relative_path = "a") ∧
       (∃ c ∈ (build_sync_plan ({ modpack_name := "m", files := [("p", ({ hash := some "D", size := none, mtime := none } : HistInfo))], exclusions := [], last_synced := none } : SyncHistory) [("a", ({ relative_path := "a", absolute_path := "src/a", size := 1, mtime := 0, hash_digest := "H" } : SnapshotEntry))] [] "tgt" (fun _ => true)).1.removals,
          c.relative_path = "a"))) :=
  ⟨by decide,
   claim_c5_at_most_one_action_list ({ modpack_name := "m", files := [("p", ({ hash := some "D", size := none, mtime := none } : HistInfo))], exclusions := [], last_synced := none } : SyncHistory) [("a", ({ relative_path := "a", absolute_path := "src/a", size := 1, mtime := 0, hash_digest := "H" } : SnapshotEntry))] [] "tgt" (fun _ => true) "a"
     (by decide)⟩

/-- Witness for C6. -/
theorem claim_c6_progress_accounting_witness :
    Fs.existsPath ({ files := [("src/u.txt", "U2"), ("src/n.txt", "N"), ("tgt/u.txt", "U1"), ("tgt/r.txt", "R")], dirs := ["tgt"] } : Fs) "tgt" = true ∧
    execute_plan ({ instances_path := "src", game_path := "tgt", backup_dir := none, auto_confirm_new_files := true, auto_confirm_updates := false, auto_confirm_removals := false } : AppConfig) ({ disk := [], cache := [] } : StoreState) ({ files := [("src/u.txt", "U2"), ("src/n.txt", "N"), ("tgt/u.txt", "U1"), ("tgt/r.txt", "R")], dirs := ["tgt"] } : Fs) "m" ({ adds := [({ relative_path := "n.txt", action := FileAction.copy, source_path := some "src/n.txt", target_path := some "tgt/n.txt", size_bytes := none, hash_digest := none, reason := none } : FileChange)], updates := [({ relative_path := "u.txt", action := FileAction.update, source_path := some "src/u.txt", target_path := some "tgt/u.txt", size_bytes := none, hash_digest := none, reason := none } : FileChange)], removals := [({ relative_path := "r.txt", action := FileAction.delete, source_path := none, target_path := some "tgt/r.txt", size_bytes := none, hash_digest := none, reason := none } : FileChange)], skipped := [] } : SyncPlan) [] (some true) (some false) false
      none none "T" = Except.ok ({
    fs := ({ files := [("src/u.txt", "U2"), ("src/n.txt", "N"), ("tgt/u.txt", "U2"), ("tgt/r.txt", "R"), ("tgt/n.txt", "N")], dirs := ["tgt"] } : Fs),
    plan := { adds := [({ relative_path := "n.txt", action := FileAction.copy, source_path := some "src/n.txt", target_path := some "tgt/n.txt", size_bytes := none, hash_digest := none, reason := none } : FileChange)], updates := [({ relative_path := "u.txt", action := FileAction.update, source_path := some "src/u.txt", target_path := some "tgt/u.txt", size_bytes := none, hash_digest := none, reason := none } : FileChange)], removals := [({ relative_path := "r.txt", action := FileAction.delete, source_path := none, target_path := some "tgt/r.txt", size_bytes := none, hash_digest := none, reason := none } : FileChange)], skipped := [({ relative_path := "r.txt", action := FileAction.delete, source_path := none, target_path := some "tgt/r.txt", size_bytes := none, hash_digest := none, reason := none } : FileChange)] },
    store := ({ disk := [("m", { files := [], exclusions := [], last_synced := some "T" })], cache := [("m", { modpack_name := "m", files := [], exclusions := [], last_synced := some "T" })] } : StoreState),
    events := [{ message := "Copied n.txt", current := 1, total := 3 },
               { message := "Updated u.txt", current := 2, total := 3 },
               { message := "Kept r.txt", current := 3, total := 3 }] } : ExecResult) ∧
    ((∀ e ∈ ({
    fs := ({ files := [("src/u.txt", "U2"), ("src/n.txt", "N"), ("tgt/u.txt", "U2"), ("tgt/r.txt", "R"), ("tgt/n.txt", "N")], dirs := ["tgt"] } : Fs),
    plan := { adds := [({ relative_path := "n.txt", action := FileAction.copy, source_path := some "src/n.txt", target_path := some "tgt/n.txt", size_bytes := none, hash_digest := none, reason := none } : FileChange)], updates := [({ relative_path := "u.txt", action := FileAction.update, source_path := some "src/u.txt", target_path := some "tgt/u.txt", size_bytes := none, hash_digest := none, reason := none } : FileChange)], removals := [({ relative_path := "r.txt", action := FileAction.delete, source_path := none, target_path := some "tgt/r.txt", size_bytes := none, hash_digest := none, reason := none } : FileChange)], skipped := [({ relative_path := "r.txt", action := FileAction.delete, source_path := none, target_path := some "tgt/r.txt", size_bytes := none, hash_digest := none, reason := none } : FileChange)] },
    store := ({ disk := [("m", { files := [], exclusions := [], last_synced := some "T" })], cache := [("m", { modpack_name := "m", files := [], exclusions := [], last_synced := some "T" })] } : StoreState),
    events := [{ message := "Copied n.txt", current := 1, total := 3 },
               { message := "Updated u.txt", current := 2, total := 3 },
               { message := "Kept r.txt", current := 3, total := 3 }] } : ExecResult).events, e.total = 3 ∧ e.message ≠ "") ∧
     ({
    fs := ({ files := [("src/u.txt", "U2"), ("src/n.txt", "N"), ("tgt/u.txt", "U2"), ("tgt/r.txt", "R"), ("tgt/n.txt", "N")], dirs := ["tgt"] } : Fs),
    plan := { adds := [({ relative_path := "n.txt", action := FileAction.copy, source_path := some "src/n.txt", target_path := some "tgt/n.txt", size_bytes := none, hash_digest := none, reason := none } : FileChange)], updates := [({ relative_path := "u.txt", action := FileAction.update, source_path := some "src/u.txt", target_path := some "tgt/u.txt", size_bytes := none, hash_digest := none, reason := none } : FileChange)], removals := [({ relative_path := "r.txt", action := FileAction.delete, source_path := none, target_path := some "tgt/r.txt", size_bytes := none, hash_digest := none, reason := none } : FileChange)], skipped := [({ relative_path := "r.txt", action := FileAction.delete, source_path := none, target_path := some "tgt/r.txt", size_bytes := none, hash_digest := none, reason := none } : FileChange)] },
    store := ({ disk := [("m", { files := [], exclusions := [], last_synced := some "T" })], cache := [("m", { modpack_name := "m", files := [], exclusions := [], last_synced := some "T" })] } : StoreState),
    events := [{ message := "Copied n.txt", current := 1, total := 3 },
               { message := "Updated u.txt", current := 2, total := 3 },
               { message := "Kept r.txt", current := 3, total := 3 }] } : ExecResult).events.map ProgressEvent.current = List.range' 1 ({
    fs := ({ files := [("src/u.txt", "U2"), ("src/n.txt", "N"), ("tgt/u.txt", "U2"), ("tgt/r.txt", "R"), ("tgt/n.txt", "N")], dirs := ["tgt"] } : Fs),
    plan := { adds := [({ relative_path := "n.txt", action := FileAction.copy, source_path := some "src/n.txt", target_path := some "tgt/n.txt", size_bytes := none, hash_digest := none, reason := none } : FileChange)], updates := [({ relative_path := "u.txt", action := FileAction.update, source_path := some "src/u.txt", target_path := some "tgt/u.txt", size_bytes := none, hash_digest := none, reason := none } : FileChange)], removals := [({ relative_path := "r.txt", action := FileAction.delete, source_path := none, target_path := some "tgt/r.txt", size_bytes := none, hash_digest := none, reason := none } : FileChange)], skipped := [({ relative_path := "r.txt", action := FileAction.delete, source_path := none, target_path := some "tgt/r.txt", size_bytes := none, hash_digest := none, reason := none } : FileChange)] },
    store := ({ disk := [("m", { files := [], exclusions := [], last_synced := some "T" })], cache := [("m", { modpack_name := "m", files := [], exclusions := [], last_synced := some "T" })] } : StoreState),
    events := [{ message := "Copied n.txt", current := 1, total := 3 },
               { message := "Updated u.txt", current := 2, total := 3 },
               { message := "Kept r.txt", current := 3, total := 3 }] } : ExecResult).events.length ∧
     ({
    fs := ({ files := [("src/u.txt", "U2"), ("src/n.txt", "N"), ("tgt/u.txt", "U2"), ("tgt/r.txt", "R"), ("tgt/n.txt", "N")], dirs := ["tgt"] } : Fs),
    plan := { adds := [({ relative_path := "n.txt", action := FileAction.copy, source_path := some "src/n.txt", target_path := some "tgt/n.txt", size_bytes := none, hash_digest := none, reason := none } : FileChange)], updates := [({ relative_path := "u.txt", action := FileAction.update, source_path := some "src/u.txt", target_path := some "tgt/u.txt", size_bytes := none, hash_digest := none, reason := none } : FileChange)], removals := [({ relative_path := "r.txt", action := FileAction.delete, source_path := none, target_path := some "tgt/r.txt", size_bytes := none, hash_digest := none, reason := none } : FileChange)], skipped := [({ relative_path := "r.txt", action := FileAction.delete, source_path := none, target_path := some "tgt/r.txt", size_bytes := none, hash_digest := none, reason := none } : FileChange)] },
    store := ({ disk := [("m", { files := [], exclusions := [], last_synced := some "T" })], cache := [("m", { modpack_name := "m", files := [], exclusions := [], last_synced := some "T" })] } : StoreState),
    events := [{ message := "Copied n.txt", current := 1, total := 3 },
               { message := "Updated u.txt", current := 2, total := 3 },
               { message := "Kept r.txt", current := 3, total := 3 }] } : ExecResult).events.length ≤ 3 ∧
     ({
    fs := ({ files := [("src/u.txt", "U2"), ("src/n.txt", "N"), ("tgt/u.txt", "U2"), ("tgt/r.txt", "R"), ("tgt/n.txt", "N")], dirs := ["tgt"] } : Fs),
    plan := { adds := [({ relative_path := "n.txt", action := FileAction.copy, source_path := some "src/n.txt", target_path := some "tgt/n.txt", size_bytes := none, hash_digest := none, reason := none } : FileChange)], updates := [({ relative_path := "u.txt", action := FileAction.update, source_path := some "src/u.txt", target_path := some "tgt/u.txt", size_bytes := none, hash_digest := none, reason := none } : FileChange)], removals := [({ relative_path := "r.txt", action := FileAction.delete, source_path := none, target_path := some "tgt/r.txt", size_bytes := none, hash_digest := none, reason := none } : FileChange)], skipped := [({ relative_path := "r.txt", action := FileAction.delete, source_path := none, target_path := some "tgt/r.txt", size_bytes := none, hash_digest := none, reason := none } : FileChange)] },
    store := ({ disk := [("m", { files := [], exclusions := [], last_synced := some "T" })], cache := [("m", { modpack_name := "m", files := [], exclusions := [], last_synced := some "T" })] } : StoreState),
    events := [{ message := "Copied n.txt", current := 1, total := 3 },
               { message := "Updated u.txt", current := 2, total := 3 },
               { message := "Kept r.txt", current := 3, total := 3 }] } : ExecResult).plan.skipped.length = 0 +
       ({
    fs := ({ files := [("src/u.txt", "U2"), ("src/n.txt", "N"), ("tgt/u.txt", "U2"), ("tgt/r.txt", "R"), ("tgt/n.txt", "N")], dirs := ["tgt"] } : Fs),
    plan := { adds := [({ relative_path := "n.txt", action := FileAction.copy, source_path := some "src/n.txt", target_path := some "tgt/n.txt", size_bytes := none, hash_digest := none, reason := none } : FileChange)], updates := [({ relative_path := "u.txt", action := FileAction.update, source_path := some "src/u.txt", target_path := some "tgt/u.txt", size_bytes := none, hash_digest := none, reason := none } : FileChange)], removals := [({ relative_path := "r.txt", action := FileAction.delete, source_path := none, target_path := some "tgt/r.txt", size_bytes := none, hash_digest := none, reason := none } : FileChange)], skipped := [({ relative_path := "r.txt", action := FileAction.delete, source_path := none, target_path := some "tgt/r.txt", size_bytes := none, hash_digest := none, reason := none } : FileChange)] },
    store := ({ disk := [("m", { files := [], exclusions := [], last_synced := some "T" })], cache := [("m", { modpack_name := "m", files := [], exclusions := [], last_synced := some "T" })] } : StoreState),
    events := [{ message := "Copied n.txt", current := 1, total := 3 },
               { message := "Updated u.txt", current := 2, total := 3 },
               { message := "Kept r.txt", current := 3, total := 3 }] } : ExecResult).events.countP
         (fun e => msgStarts "Skipped " e.message || msgStarts "Kept " e.message)) :=
  ⟨rfl, rfl,
   claim_c6_progress_accounting ({ instances_path := "src", game_path := "tgt", backup_dir := none, auto_confirm_new_files := true, auto_confirm_updates := false, auto_confirm_removals := false } : AppConfig) ({ disk := [], cache := [] } : StoreState) ({ files := [("src/u.txt", "U2"), ("src/n.txt", "N"), ("tgt/u.txt", "U1"), ("tgt/r.txt", "R")], dirs := ["tgt"] } : Fs) "m" ({ adds := [({ relative_path := "n.txt", action := FileAction.copy, source_path := some "src/n.txt", target_path := some "tgt/n.txt", size_bytes := none, hash_digest := none, reason := none } : FileChange)], updates := [({ relative_path := "u.txt", action := FileAction.update, source_path := some "src/u.txt", target_path := some "tgt/u.txt", size_bytes := none, hash_digest := none, reason := none } : FileChange)], removals := [({ relative_path := "r.txt", action := FileAction.delete, source_path := none, target_path := some "tgt/r.txt", size_bytes := none, hash_digest := none, reason := none } : FileChange)], skipped := [] } : SyncPlan) [] (some true)
     (some false) false none none "T" ({
    fs := ({ files := [("src/u.txt", "U2"), ("src/n.txt", "N"), ("tgt/u.txt", "U2"), ("tgt/r.txt", "R"), ("tgt/n.txt", "N")], dirs := ["tgt"] } : Fs),
    plan := { adds := [({ relative_path := "n.txt", action := FileAction.copy, source_path := some "src/n.txt", target_path := some "tgt/n.txt", size_bytes := none, hash_digest := none, reason := none } : FileChange)], updates := [({ relative_path := "u.txt", action := FileAction.update, source_path := some "src/u.txt", target_path := some "tgt/u.txt", size_bytes := none, hash_digest := none, reason := none } : FileChange)], removals := [({ relative_path := "r.txt", action := FileAction.delete, source_path := none, target_path := some "tgt/r.txt", size_bytes := none, hash_digest := none, reason := none } : FileChange)], skipped := [({ relative_path := "r.txt", action := FileAction.delete, source_path := none, target_path := some "tgt/r.txt", size_bytes := none, hash_digest := none, reason := none } : FileChange)] },
    store := ({ disk := [("m", { files := [], exclusions := [], last_synced := some "T" })], cache := [("m", { modpack_name := "m", files := [], exclusions := [], last_synced := some "T" })] } : StoreState),
    events := [{ message := "Copied n.txt", current := 1, total := 3 },
               { message := "Updated u.txt", current := 2, total := 3 },
               { message := "Kept r.txt", current := 3, total := 3 }] } : ExecResult) rfl rfl⟩

/-- Witness for C7. -/
theorem claim_c7_reclassified_adds_processed_witness :
    Fs.existsPath ({ files := [("src/u.txt", "U2"), ("src/n.txt", "N"), ("tgt/u.txt", "U1"), ("tgt/r.txt", "R")], dirs := ["tgt"] } : Fs) "tgt" = true ∧
    execute_plan ({ instances_path := "src", game_path := "tgt", backup_dir := none, auto_confirm_new_files := true, auto_confirm_updates := false, auto_confirm_removals := false } : AppConfig) ({ disk := [], cache := [] } : StoreState) ({ files := [("src/u.txt", "U2"), ("src/n.txt", "N"), ("tgt/u.txt", "U1"), ("tgt/r.txt", "R")], dirs := ["tgt"] } : Fs) "m" ({ adds := [({ relative_path := "u.txt", action := FileAction.copy, source_path := some "src/u.txt", target_path := some "tgt/u.txt", size_bytes := none, hash_digest := none, reason := none } : FileChange)], updates := [], removals := [], skipped := [] } : SyncPlan) [] (some true) (some true) false
      none none "T" = Except.ok ({
    fs := ({ files := [("src/u.txt", "U2"), ("src/n.txt", "N"), ("tgt/u.txt", "U2"), ("tgt/r.txt", "R")], dirs := ["tgt"] } : Fs),
    plan := { adds := [({ relative_path := "u.txt", action := FileAction.copy, source_path := some "src/u.txt", target_path := some "tgt/u.txt", size_bytes := none, hash_digest := none, reason := none } : FileChange)], updates := [({ relative_path := "u.txt", action := FileAction.update, source_path := some "src/u.txt", target_path := some "tgt/u.txt", size_bytes := none, hash_digest := none, reason := none } : FileChange)], removals := [], skipped := [] },
    store := ({ disk := [("m", { files := [], exclusions := [], last_synced := some "T" })], cache := [("m", { modpack_name := "m", files := [], exclusions := [], last_synced := some "T" })] } : StoreState),
    events := [{ message := "Updated u.txt", current := 1, total := 1 }] } : ExecResult) ∧
    (∃ reclass,
      ({
    fs := ({ files := [("src/u.txt", "U2"), ("src/n.txt", "N"), ("tgt/u.txt", "U2"), ("tgt/r.txt", "R")], dirs := ["tgt"] } : Fs),
    plan := { adds := [({ relative_path := "u.txt", action := FileAction.copy, source_path := some "src/u.txt", target_path := some "tgt/u.txt", size_bytes := none, hash_digest := none, reason := none } : FileChange)], updates := [({ relative_path := "u.txt", action := FileAction.update, source_path := some "src/u.txt", target_path := some "tgt/u.txt", size_bytes := none, hash_digest := none, reason := none } : FileChange)], removals := [], skipped := [] },
    store := ({ disk := [("m", { files := [], exclusions := [], last_synced := some "T" })], cache := [("m", { modpack_name := "m", files := [], exclusions := [], last_synced := some "T" })] } : StoreState),
    events := [{ message := "Updated u.txt", current := 1, total := 1 }] } : ExecResult).plan.updates = [] ++ reclass ∧
      (∀ c ∈ reclass, ∃ c₀, c₀ ∈ ({ adds := [({ relative_path := "u.txt", action := FileAction.copy, source_path := some "src/u.txt", target_path := some "tgt/u.txt", size_bytes := none, hash_digest := none, reason := none } : FileChange)], updates := [], removals := [], skipped := [] } : SyncPlan).adds ∧ c = { c₀ with action := FileAction.update }) ∧
      ({
    fs := ({ files := [("src/u.txt", "U2"), ("src/n.txt", "N"), ("tgt/u.txt", "U2"), ("tgt/r.txt", "R")], dirs := ["tgt"] } : Fs),
    plan := { adds := [({ relative_path := "u.txt", action := FileAction.copy, source_path := some "src/u.txt", target_path := some "tgt/u.txt", size_bytes := none, hash_digest := none, reason := none } : FileChange)], updates := [({ relative_path := "u.txt", action := FileAction.update, source_path := some "src/u.txt", target_path := some "tgt/u.txt", size_bytes := none, hash_digest := none, reason := none } : FileChange)], removals := [], skipped := [] },
    store := ({ disk := [("m", { files := [], exclusions := [], last_synced := some "T" })], cache := [("m", { modpack_name := "m", files := [], exclusions := [], last_synced := some "T" })] } : StoreState),
    events := [{ message := "Updated u.txt", current := 1, total := 1 }] } : ExecResult).events.countP
        (fun e => msgStarts "Skipped " e.message || msgStarts "Updated " e.message) =
        ({
    fs := ({ files := [("src/u.txt", "U2"), ("src/n.txt", "N"), ("tgt/u.txt", "U2"), ("tgt/r.txt", "R")], dirs := ["tgt"] } : Fs),
    plan := { adds := [({ relative_path := "u.txt", action := FileAction.copy, source_path := some "src/u.txt", target_path := some "tgt/u.txt", size_bytes := none, hash_digest := none, reason := none } : FileChange)], updates := [({ relative_path := "u.txt", action := FileAction.update, source_path := some "src/u.txt", target_path := some "tgt/u.txt", size_bytes := none, hash_digest := none, reason := none } : FileChange)], removals := [], skipped := [] },
    store := ({ disk := [("m", { files := [], exclusions := [], last_synced := some "T" })], cache := [("m", { modpack_name := "m", files := [], exclusions := [], last_synced := some "T" })] } : StoreState),
    events := [{ message := "Updated u.txt", current := 1, total := 1 }] } : ExecResult).plan.updates.length) :=
  ⟨rfl, rfl,
   claim_c7_reclassified_adds_processed ({ instances_path := "src", game_path := "tgt", backup_dir := none, auto_confirm_new_files := true, auto_confirm_updates := false, auto_confirm_removals := false } : AppConfig) ({ disk := [], cache := [] } : StoreState) ({ files := [("src/u.txt", "U2"), ("src/n.txt", "N"), ("tgt/u.txt", "U1"), ("tgt/r.txt", "R")], dirs := ["tgt"] } : Fs) "m" ({ adds := [({ relative_path := "u.txt", action := FileAction.copy, source_path := some "src/u.txt", target_path := some "tgt/u.txt", size_bytes := none, hash_digest := none, reason := none } : FileChange)], updates := [], removals := [], skipped := [] } : SyncPlan) [] (some true)
     (some true) false none none "T" ({
    fs := ({ files := [("src/u.txt", "U2"), ("src/n.txt", "N"), ("tgt/u.txt", "U2"), ("tgt/r.txt", "R")], dirs := ["tgt"] } : Fs),
    plan := { adds := [({ relative_path := "u.txt", action := FileAction.copy, source_path := some "src/u.txt", target_path := some "tgt/u.txt", size_bytes := none, hash_digest := none, reason := none } : FileChange)], updates := [({ relative_path := "u.txt", action := FileAction.update, source_path := some "src/u.txt", target_path := some "tgt/u.txt", size_bytes := none, hash_digest := none, reason := none } : FileChange)], removals := [], skipped := [] },
    store := ({ disk := [("m", { files := [], exclusions := [], last_synced := some "T" })], cache := [("m", { modpack_name := "m", files := [], exclusions := [], last_synced := some "T" })] } : StoreState),
    events := [{ message := "Updated u.txt", current := 1, total := 1 }] } : ExecResult) rfl rfl⟩

/-- Witness for C10. -/
theorem claim_c10_adds_never_gated_witness :
    Fs.existsPath ({ files := [("src/u.txt", "U2"), ("src/n.txt", "N"), ("tgt/u.txt", "U1"), ("tgt/r.txt", "R")], dirs := ["tgt"] } : Fs) "tgt" = true ∧
    ({ adds := [({ relative_path := "n.txt", action := FileAction.copy, source_path := some "src/n.txt", target_path := some "tgt/n.txt", size_bytes := none, hash_digest := none, reason := none } : FileChange)], updates := [], removals := [], skipped := [] } : SyncPlan).updates = [] ∧
    ({ adds := [({ relative_path := "n.txt", action := FileAction.copy, source_path := some "src/n.txt", target_path := some "tgt/n.txt", size_bytes := none, hash_digest := none, reason := none } : FileChange)], updates := [], removals := [], skipped := [] } : SyncPlan).removals = [] ∧
    (∀ c ∈ ({ adds := [({ relative_path := "n.txt", action := FileAction.copy, source_path := some "src/n.txt", target_path := some "tgt/n.txt", size_bytes := none, hash_digest := none, reason := none } : FileChange)], updates := [], removals := [], skipped := [] } : SyncPlan).adds, Fs.existsPath ({ files := [("src/u.txt", "U2"), ("src/n.txt", "N"), ("tgt/u.txt", "U1"), ("tgt/r.txt", "R")], dirs := ["tgt"] } : Fs) (changeDest "tgt" c) = false) ∧
    ((({ adds := [({ relative_path := "n.txt", action := FileAction.copy, source_path := some "src/n.txt", target_path := some "tgt/n.txt", size_bytes := none, hash_digest := none, reason := none } : FileChange)], updates := [], removals := [], skipped := [] } : SyncPlan).adds.map (changeDest "tgt")).Nodup) ∧
    (∀ c ∈ ({ adds := [({ relative_path := "n.txt", action := FileAction.copy, source_path := some "src/n.txt", target_path := some "tgt/n.txt", size_bytes := none, hash_digest := none, reason := none } : FileChange)], updates := [], removals := [], skipped := [] } : SyncPlan).adds, ∃ sp, c.source_path = some sp ∧
      (Fs.readFile ({ files := [("src/u.txt", "U2"), ("src/n.txt", "N"), ("tgt/u.txt", "U1"), ("tgt/r.txt", "R")], dirs := ["tgt"] } : Fs) sp).isSome ∧ ∀ c' ∈ ({ adds := [({ relative_path := "n.txt", action := FileAction.copy, source_path := some "src/n.txt", target_path := some "tgt/n.txt", size_bytes := none, hash_digest := none, reason := none } : FileChange)], updates := [], removals := [], skipped := [] } : SyncPlan).adds, changeDest "tgt" c' ≠ sp) ∧
    (execute_plan { ({ instances_path := "src", game_path := "tgt", backup_dir := none, auto_confirm_new_files := true, auto_confirm_updates := false, auto_confirm_removals := false } : AppConfig) with auto_confirm_new_files := true } ({ disk := [], cache := [] } : StoreState) ({ files := [("src/u.txt", "U2"), ("src/n.txt", "N"), ("tgt/u.txt", "U1"), ("tgt/r.txt", "R")], dirs := ["tgt"] } : Fs) "m"
        ({ adds := [({ relative_path := "n.txt", action := FileAction.copy, source_path := some "src/n.txt", target_path := some "tgt/n.txt", size_bytes := none, hash_digest := none, reason := none } : FileChange)], updates := [], removals := [], skipped := [] } : SyncPlan) [] none none false (some (fun _ => true)) (some (fun _ => false)) "T" =
      execute_plan { ({ instances_path := "src", game_path := "tgt", backup_dir := none, auto_confirm_new_files := true, auto_confirm_updates := false, auto_confirm_removals := false } : AppConfig) with auto_confirm_new_files := false } ({ disk := [], cache := [] } : StoreState) ({ files := [("src/u.txt", "U2"), ("src/n.txt", "N"), ("tgt/u.txt", "U1"), ("tgt/r.txt", "R")], dirs := ["tgt"] } : Fs) "m"
        ({ adds := [({ relative_path := "n.txt", action := FileAction.copy, source_path := some "src/n.txt", target_path := some "tgt/n.txt", size_bytes := none, hash_digest := none, reason := none } : FileChange)], updates := [], removals := [], skipped := [] } : SyncPlan) [] none none false none none "T" ∧
     ∀ res, execute_plan { ({ instances_path := "src", game_path := "tgt", backup_dir := none, auto_confirm_new_files := true, auto_confirm_updates := false, auto_confirm_removals := false } : AppConfig) with auto_confirm_new_files := true } ({ disk := [], cache := [] } : StoreState) ({ files := [("src/u.txt", "U2"), ("src/n.txt", "N"), ("tgt/u.txt", "U1"), ("tgt/r.txt", "R")], dirs := ["tgt"] } : Fs) "m"
        ({ adds := [({ relative_path := "n.txt", action := FileAction.copy, source_path := some "src/n.txt", target_path := some "tgt/n.txt", size_bytes := none, hash_digest := none, reason := none } : FileChange)], updates := [], removals := [], skipped := [] } : SyncPlan) [] none none false (some (fun _ => true)) (some (fun _ => false)) "T" =
          Except.ok res →
      ∀ c ∈ ({ adds := [({ relative_path := "n.txt", action := FileAction.copy, source_path := some "src/n.txt", target_path := some "tgt/n.txt", size_bytes := none, hash_digest := none, reason := none } : FileChange)], updates := [], removals := [], skipped := [] } : SyncPlan).adds, ∀ sp v, c.source_path = some sp →
        Fs.readFile ({ files := [("src/u.txt", "U2"), ("src/n.txt", "N"), ("tgt/u.txt", "U1"), ("tgt/r.txt", "R")], dirs := ["tgt"] } : Fs) sp = some v →
        Fs.readFile res.fs (changeDest "tgt" c) = some v) :=
  ⟨rfl, rfl, rfl, by decide, by decide,
   (by intro c hc
       simp only [List.mem_singleton] at hc
       subst hc
       exact ⟨"src/n.txt", rfl, by decide, by decide⟩),
   claim_c10_adds_never_gated ({ instances_path := "src", game_path := "tgt", backup_dir := none, auto_confirm_new_files := true, auto_confirm_updates := false, auto_confirm_removals := false } : AppConfig) ({ disk := [], cache := [] } : StoreState) ({ files := [("src/u.txt", "U2"), ("src/n.txt", "N"), ("tgt/u.txt", "U1"), ("tgt/r.txt", "R")], dirs := ["tgt"] } : Fs) "m" ({ adds := [({ relative_path := "n.txt", action := FileAction.copy, source_path := some "src/n.txt", target_path := some "tgt/n.txt", size_bytes := none, hash_digest := none, reason := none } : FileChange)], updates := [], removals := [], skipped := [] } : SyncPlan) [] none none false "T"
     true false (some (fun _ => true)) none (some (fun _ => false)) none rfl rfl rfl
     (by decide) (by decide)
     (by intro c hc
         simp only [List.mem_singleton] at hc
         subst hc
         exact ⟨"src/n.txt", rfl, by decide, by decide⟩)⟩

end ModSync
